import Mathlib

/-!
Shallow embedding of the musical-creatures game engine.

Sources embedded here:
* the note-sequence game module (life model): constants, frequency filtering,
  max-error computation, the hysteresis state machine, grace-silence handling,
  note-sequence advancement, phase machine and the life/survival bookkeeping
  of updateSequenceGame / startSequenceGame;
* the creature game module (doom model): the analogous constants and
  updateCreatureGame / startGame with the chaosEqSeconds doom meter,
  calm-hold target change and its doom reward;
* the pitch-detection module: the duplicate / harmonic rejection predicate of
  findAdditionalPitches.

Numbers are modelled as rationals.  The only transcendental ingredient of the
source is frequencyToMidi, namely f ↦ 69 + 12·log2(f/440); the engine treats
it as an opaque per-voice conversion, so the embedding takes the conversion
map as an explicit parameter mu : Q → Q and every state-machine theorem is
proved for all such maps.  Likewise the Hz values of the five sequence notes
(noteNameToFrequency of G3, C4, D4, E4, C4) are irrational, and the engine
only ever feeds them through the conversion, so they enter as a parameter
noteFreqs : Nat → Q.  Particle, rendering and audio-synthesis state is
display-only (it never feeds back into game state) and is omitted.
JavaScript numbers have NaN/Infinity; over Q those guards of
filterValidFrequencies are vacuous and the remaining guards are kept.
-/

/-- Emotional state of the creature.  The sequence game calls the middle
state TENSION, the creature game calls it INESTABLE; both are the same
three-way enumeration. -/
inductive State3 where
  | CALMA
  | TENSION
  | CAOS
deriving DecidableEq, Repr

/-- Game phase of the sequence game: PLAYING_NOTES, COUNTDOWN, PLAYING,
GAME_OVER. -/
inductive GamePhase where
  | PLAYING_NOTES
  | COUNTDOWN
  | PLAYING
  | GAME_OVER
deriving DecidableEq, Repr

/-- Source function clamp(value, min, max) = Math.max(min, Math.min(max, value)). -/
def clamp (value mn mx : ℚ) : ℚ := max mn (min mx value)

/-- Source function lerp(a, b, t) = a + (b - a) * t. -/
def lerp (a b t : ℚ) : ℚ := a + (b - a) * t

/-- Smoothing factor ENERGY_LERP = 0.15 (identical in both game modules). -/
def ENERGY_LERP : ℚ := 0.15

/-- FREQ_MIN = 80 Hz (both game modules). -/
def FREQ_MIN : ℚ := 80

/-- FREQ_MAX = 1200 Hz (both game modules). -/
def FREQ_MAX : ℚ := 1200

/-- GRACE_SILENCE = 300 ms (both game modules). -/
def GRACE_SILENCE : ℚ := 300

/-- Source function filterValidFrequencies: keeps truthy, finite values inside
[FREQ_MIN, FREQ_MAX].  Over the rationals the NaN/finite guards are vacuous
and truthiness of a number below 80 is subsumed by the range check. -/
def filterValidFrequencies (freqsHz : List ℚ) : List ℚ :=
  freqsHz.filter fun freq => decide (FREQ_MIN ≤ freq ∧ freq ≤ FREQ_MAX)

/-- Source function frequencyToMidi: returns null for non-positive input and
69 + 12·log2(freq/440) otherwise; the transcendental part is the parameter
mu. -/
def frequencyToMidi (mu : ℚ → ℚ) (freq : ℚ) : Option ℚ :=
  if freq ≤ 0 then none else some (mu freq)

/-- Generic hysteresis transition shared verbatim by both game modules
(they differ only in the four threshold constants):
error at most calmEnter gives CALMA, error above chaosEnter gives CAOS,
and in the dead band the previous state sticks within its exit threshold,
otherwise TENSION. -/
def nextState (calmEnter calmExit chaosEnter chaosExit : ℚ)
    (prevState : State3) (maxError : ℚ) : State3 :=
  if maxError ≤ calmEnter then State3.CALMA
  else if chaosEnter < maxError then State3.CAOS
  else if prevState = State3.CALMA ∧ maxError ≤ calmExit then State3.CALMA
  else if prevState = State3.CAOS ∧ chaosExit ≤ maxError then State3.CAOS
  else State3.TENSION

/-- Modelled from the spec: the dead-band transition rule as the spec words
it, to be compared against the source transition nextState.  "error ≤
CALM_ENTER yields CALM; error > CHAOS_ENTER yields CHAOS; otherwise the state
stays CALM if the previous state was CALM and error ≤ CALM_EXIT, stays CHAOS
if the previous state was CHAOS and error ≥ CHAOS_EXIT, and settles to
UNSTABLE in every other case." -/
def specTransition (calmEnter calmExit chaosEnter chaosExit : ℚ)
    (prevState : State3) (err : ℚ) : State3 :=
  if err ≤ calmEnter then State3.CALMA
  else if chaosEnter < err then State3.CAOS
  else if prevState = State3.CALMA then
    (if err ≤ calmExit then State3.CALMA else State3.TENSION)
  else if prevState = State3.CAOS then
    (if chaosExit ≤ err then State3.CAOS else State3.TENSION)
  else State3.TENSION

namespace SeqGame

/-- CALM_THRESHOLD = 0.8 semitones (sequence game). -/
def CALM_THRESHOLD : ℚ := 0.8

/-- TENSION_THRESHOLD = 2.0 semitones (sequence game). -/
def TENSION_THRESHOLD : ℚ := 2.0

/-- TENSION_DRAIN_RATE = 0.05 life per second. -/
def TENSION_DRAIN_RATE : ℚ := 0.05

/-- CHAOS_DRAIN_RATE = 0.15 life per second. -/
def CHAOS_DRAIN_RATE : ℚ := 0.15

/-- INITIAL_LIFE = 1.0. -/
def INITIAL_LIFE : ℚ := 1.0

/-- CALMA_THRESHOLD_ENTER = CALM_THRESHOLD. -/
def CALMA_THRESHOLD_ENTER : ℚ := CALM_THRESHOLD

/-- CALMA_THRESHOLD_EXIT = CALM_THRESHOLD * 1.1. -/
def CALMA_THRESHOLD_EXIT : ℚ := CALM_THRESHOLD * 1.1

/-- CAOS_THRESHOLD_ENTER = TENSION_THRESHOLD. -/
def CAOS_THRESHOLD_ENTER : ℚ := TENSION_THRESHOLD

/-- CAOS_THRESHOLD_EXIT = TENSION_THRESHOLD * 0.9. -/
def CAOS_THRESHOLD_EXIT : ℚ := TENSION_THRESHOLD * 0.9

/-- Hysteresis transition of the sequence game, i.e. the generic transition
at the sequence-game thresholds. -/
def seqNextState (prevState : State3) (maxError : ℚ) : State3 :=
  nextState CALMA_THRESHOLD_ENTER CALMA_THRESHOLD_EXIT
    CAOS_THRESHOLD_ENTER CAOS_THRESHOLD_EXIT prevState maxError

/-- Durations, in seconds, of the five entries of NOTE_SEQUENCE
(G3 0.6s, C4 0.9s, D4 0.6s, E4 0.9s, C4 1.2s). -/
def noteDurations : List ℚ := [0.6, 0.9, 0.6, 0.9, 1.2]

/-- Duration in seconds of NOTE_SEQUENCE[i] (indices stay below 5 in any
session, so the default is never hit there). -/
def noteDurationOf (i : ℕ) : ℚ := noteDurations.getD i 0

/-- Total duration of the whole note sequence, in milliseconds, as computed
at the PLAYING_NOTES phase from NOTE_SEQUENCE. -/
def totalDurationMs : ℚ := (noteDurations.foldl (fun a b => a + b) 0) * 1000

/-- Source function calculateMaxError (sequence-game version, target in Hz):
filter the frequencies, convert target and voices to MIDI, and return the
maximum per-voice absolute difference, or null when nothing is usable. -/
def calculateMaxError (mu : ℚ → ℚ) (freqsHz : List ℚ) (targetFreq : ℚ) : Option ℚ :=
  let validFreqs := filterValidFrequencies freqsHz
  if validFreqs.isEmpty then none
  else
    match frequencyToMidi mu targetFreq with
    | none => none
    | some targetMidi =>
      let errors := validFreqs.filterMap fun freq =>
        (frequencyToMidi mu freq).map fun midi => |midi - targetMidi|
      match errors with
      | [] => none
      | e :: es => some (es.foldl max e)

/-- Mutable module state of the sequence game (render-only particle state
omitted; sequenceNotes is represented by the noteFreqs parameter of the
update function since the game only reads the per-note frequency and
NOTE_SEQUENCE durations from it). -/
structure SeqState where
  energy : ℚ
  currentState : State3
  time : ℚ
  graceSilenceTimer : ℚ
  currentNoteIndex : ℕ
  currentNoteTimer : ℚ
  gamePhase : GamePhase
  initialPlaybackTimer : ℚ
  initialPlaybackNoteIndex : ℤ
  countdownTimer : ℚ
  countdownNumber : ℤ
  life : ℚ
  survivalTime : ℚ
  isGameOver : Bool
deriving DecidableEq, Repr

/-- Source function getCurrentTarget: the frequency of the current sequence
note, or null when the index is out of range (sequenceNotes has length 5
after start). -/
def getCurrentTarget (noteFreqs : ℕ → ℚ) (s : SeqState) : Option ℚ :=
  if s.currentNoteIndex < 5 then some (noteFreqs s.currentNoteIndex) else none

/-- Loop of the PLAYING_NOTES phase computing which note is currently being
demonstrated: walk the cumulative durations (in ms) until the timer falls
inside a note, defaulting to the last index. -/
def playbackIndexAux (timer accumulatedTime : ℚ) (i : ℕ) : List ℚ → ℕ
  | [] => i
  | d :: rest =>
    if timer < accumulatedTime + d * 1000 then i
    else
      match rest with
      | [] => i
      | _ :: _ => playbackIndexAux timer (accumulatedTime + d * 1000) (i + 1) rest

/-- Which note of NOTE_SEQUENCE is being demonstrated at the given playback
timer (ms). -/
def playbackIndex (timer : ℚ) : ℤ :=
  (playbackIndexAux timer 0 0 noteDurations : ℤ)

/-- Tail of updateSequenceGame once a concrete maxError has been resolved:
proximity, energy smoothing, hysteresis transition, survival-time accrual,
state-dependent life drain, clamping, and the game-over check. -/
def resolveTick (maxError dt : ℚ) (s : SeqState) : SeqState :=
  let proximity := 1 - clamp (maxError / 2.0) 0 1
  let newEnergy := lerp s.energy proximity ENERGY_LERP
  let newState := seqNextState s.currentState maxError
  let dtSeconds := dt / 1000
  let newSurvival := s.survivalTime + dtSeconds
  let drained :=
    if newState = State3.CAOS then s.life - dtSeconds * CHAOS_DRAIN_RATE
    else if newState = State3.TENSION then s.life - dtSeconds * TENSION_DRAIN_RATE
    else s.life
  let newLife := clamp drained 0 INITIAL_LIFE
  if newLife ≤ 0 then
    { s with energy := newEnergy, currentState := newState,
             survivalTime := newSurvival, life := newLife,
             isGameOver := true, gamePhase := GamePhase.GAME_OVER }
  else
    { s with energy := newEnergy, currentState := newState,
             survivalTime := newSurvival, life := newLife }

/-- Advancement of the current-note timer and index at the top of the
PLAYING branch: add dt to the note timer, and once the current note's
duration (ms) is reached, reset the timer to 0 and step the index to
(index + 1) mod NOTE_SEQUENCE.length. -/
def seqAdvance (dt : ℚ) (s : SeqState) : SeqState :=
  let s1 := { s with currentNoteTimer := s.currentNoteTimer + dt }
  let noteDuration := noteDurationOf s1.currentNoteIndex * 1000
  if noteDuration ≤ s1.currentNoteTimer then
    { s1 with currentNoteTimer := 0,
              currentNoteIndex := (s1.currentNoteIndex + 1) % 5 }
  else s1

/-- PLAYING-phase body of updateSequenceGame: advance the current-note timer
and index, then resolve the tick through the grace-silence policy.  The
source reads getCurrentTarget after incrementing the note timer and before
the index advance; the timer increment does not change the index, so the
target is read from s directly.  Without a target the source returns after
the timer increment (the advance guard is also target-gated). -/
def playingTick (mu : ℚ → ℚ) (noteFreqs : ℕ → ℚ) (freqsHz : List ℚ) (dt : ℚ)
    (s : SeqState) : SeqState :=
  match getCurrentTarget noteFreqs s with
  | none => { s with currentNoteTimer := s.currentNoteTimer + dt }
  | some targetFreq =>
    let s2 := seqAdvance dt s
    let validFreqs := filterValidFrequencies freqsHz
    if validFreqs.length = 0 then
      let s3 := { s2 with graceSilenceTimer := s2.graceSilenceTimer + dt }
      if GRACE_SILENCE ≤ s3.graceSilenceTimer then
        resolveTick 999 dt s3
      else s3
    else
      let s3 := { s2 with graceSilenceTimer := 0 }
      match calculateMaxError mu validFreqs targetFreq with
      | none => s3
      | some maxError => resolveTick maxError dt s3

/-- Source function updateSequenceGame(freqsHz, dt): frozen after game over,
otherwise advances the animation clock and dispatches on the game phase
(initial note playback, countdown, then the playing tick). -/
def updateSequenceGame (mu : ℚ → ℚ) (noteFreqs : ℕ → ℚ) (freqsHz : List ℚ)
    (dt : ℚ) (s : SeqState) : SeqState :=
  if s.isGameOver = true ∨ s.gamePhase = GamePhase.GAME_OVER then s
  else
    let s0 := { s with time := s.time + dt }
    if s0.gamePhase = GamePhase.PLAYING_NOTES then
      let s1 := { s0 with initialPlaybackTimer := s0.initialPlaybackTimer + dt,
                          initialPlaybackNoteIndex := playbackIndex (s0.initialPlaybackTimer + dt) }
      if totalDurationMs ≤ s1.initialPlaybackTimer then
        { s1 with gamePhase := GamePhase.COUNTDOWN, countdownTimer := 0,
                  countdownNumber := 3, initialPlaybackTimer := 0,
                  initialPlaybackNoteIndex := -1,
                  currentNoteIndex := 0, currentNoteTimer := 0 }
      else s1
    else if s0.gamePhase = GamePhase.COUNTDOWN then
      let s1 := { s0 with countdownTimer := s0.countdownTimer + dt }
      if (1000 : ℚ) ≤ s1.countdownTimer then
        let s2 := { s1 with countdownNumber := s1.countdownNumber - 1,
                            countdownTimer := 0 }
        if s2.countdownNumber ≤ 0 then
          { s2 with gamePhase := GamePhase.PLAYING, countdownTimer := 0,
                    countdownNumber := 0 }
        else s2
      else s1
    else
      playingTick mu noteFreqs freqsHz dt s0

/-- Source function startSequenceGame: the freshly initialised module state
(the audio side effect of playing the reference sequence is external). -/
def startSequenceGame : SeqState :=
  { energy := 0.9, currentState := State3.CALMA, time := 0,
    graceSilenceTimer := 0, currentNoteIndex := 0, currentNoteTimer := 0,
    gamePhase := GamePhase.PLAYING_NOTES, initialPlaybackTimer := 0,
    initialPlaybackNoteIndex := 0, countdownTimer := 0, countdownNumber := 3,
    life := INITIAL_LIFE, survivalTime := 0, isGameOver := false }

/-- Fold a list of per-tick inputs (frequency list, dt in ms) through
updateSequenceGame. -/
def runSeq (mu : ℚ → ℚ) (noteFreqs : ℕ → ℚ) (inputs : List (List ℚ × ℚ))
    (s : SeqState) : SeqState :=
  inputs.foldl (fun st inp => updateSequenceGame mu noteFreqs inp.1 inp.2 st) s

/-- Life drained per second in each state: the case split of the source's
life update (CAOS at the high rate, TENSION at the low rate, CALMA none). -/
def drainOf : State3 → ℚ
  | State3.CAOS => CHAOS_DRAIN_RATE
  | State3.TENSION => TENSION_DRAIN_RATE
  | State3.CALMA => 0

/-- Invariant of the sequence game claimed by the spec: energy and life both
stay inside the unit interval. -/
def SeqInv (s : SeqState) : Prop :=
  0 ≤ s.energy ∧ s.energy ≤ 1 ∧ 0 ≤ s.life ∧ s.life ≤ 1

/-- Concrete stand-in for the five sequence-note frequencies used by the
closed simulation runs (the silent runs never read the value). -/
def nfDemo : ℕ → ℚ := fun _ => 440

/-- Concrete PLAYING-phase session state sitting in CAOS, used to probe the
hysteresis at the CALM_ENTER boundary. -/
def sCaosPlaying : SeqState :=
  { startSequenceGame with gamePhase := GamePhase.PLAYING,
                           currentState := State3.CAOS, energy := 0.2 }

/-- Concrete PLAYING-phase session state with some accumulated survival time
and a fresh silence timer, used to probe grace-period accrual. -/
def sGracePlaying : SeqState :=
  { startSequenceGame with gamePhase := GamePhase.PLAYING,
                           survivalTime := 5, life := 0.7 }

end SeqGame

namespace CreatureGame

/-- CALM_THRESHOLD = 0.5 semitones (creature game). -/
def CALM_THRESHOLD : ℚ := 0.5

/-- UNSTABLE_THRESHOLD = 1.5 semitones (creature game). -/
def UNSTABLE_THRESHOLD : ℚ := 1.5

/-- CHAOS_MAX = 10.0 seconds of equivalent chaos before game over. -/
def CHAOS_MAX : ℚ := 10.0

/-- UNSTABLE_WEIGHT = 0.5, doom weight of the INESTABLE state. -/
def UNSTABLE_WEIGHT : ℚ := 0.5

/-- CALM_HOLD_FOR_TARGET_CHANGE = 2000 ms of consecutive CALMA. -/
def CALM_HOLD_FOR_TARGET_CHANGE : ℚ := 2000

/-- TARGET_CHANGE_REWARD = 1.0 second of doom removed on target change. -/
def TARGET_CHANGE_REWARD : ℚ := 1.0

/-- CALMA_THRESHOLD_ENTER = CALM_THRESHOLD. -/
def CALMA_THRESHOLD_ENTER : ℚ := CALM_THRESHOLD

/-- CALMA_THRESHOLD_EXIT = CALM_THRESHOLD * 1.1. -/
def CALMA_THRESHOLD_EXIT : ℚ := CALM_THRESHOLD * 1.1

/-- CAOS_THRESHOLD_ENTER = UNSTABLE_THRESHOLD. -/
def CAOS_THRESHOLD_ENTER : ℚ := UNSTABLE_THRESHOLD

/-- CAOS_THRESHOLD_EXIT = UNSTABLE_THRESHOLD * 0.9. -/
def CAOS_THRESHOLD_EXIT : ℚ := UNSTABLE_THRESHOLD * 0.9

/-- Hysteresis transition of the creature game (INESTABLE is the TENSION
constructor). -/
def creatureNextState (prevState : State3) (maxError : ℚ) : State3 :=
  nextState CALMA_THRESHOLD_ENTER CALMA_THRESHOLD_EXIT
    CAOS_THRESHOLD_ENTER CAOS_THRESHOLD_EXIT prevState maxError

/-- Source function calculateMaxError (creature-game version, target already
in MIDI). -/
def calculateMaxError (mu : ℚ → ℚ) (freqsHz : List ℚ) (targetMidi : ℚ) : Option ℚ :=
  let validFreqs := filterValidFrequencies freqsHz
  if validFreqs.isEmpty then none
  else
    let errors := validFreqs.filterMap fun freq =>
      (frequencyToMidi mu freq).map fun midi => |midi - targetMidi|
    match errors with
    | [] => none
    | e :: es => some (es.foldl max e)

/-- Mutable module state of the creature game (render-only particle state and
the display-only targetNoteName / targetFreq mirrors of targetMidi omitted). -/
structure CreatureState where
  energy : ℚ
  currentState : State3
  time : ℚ
  graceSilenceTimer : ℚ
  targetMidi : Option ℚ
  scoreSeconds : ℚ
  chaosEqSeconds : ℚ
  isGameOver : Bool
  calmHoldSeconds : ℚ
  lastValidFreqsCount : ℕ
deriving DecidableEq, Repr

/-- Tail of updateCreatureGame once a concrete maxError has been resolved:
energy smoothing, hysteresis transition, calm-hold accounting, the random
target change with its doom reward (randMidi is the oracle standing for
selectRandomTargetNote), score accrual, weighted doom accrual, clamping and
the game-over check. -/
def creatureResolve (randMidi : ℚ) (maxError dt : ℚ) (targetMidi : ℚ)
    (s : CreatureState) : CreatureState :=
  let proximity := 1 - clamp (maxError / 2.0) 0 1
  let newEnergy := lerp s.energy proximity ENERGY_LERP
  let newState := creatureNextState s.currentState maxError
  let calmHold := if newState = State3.CALMA then s.calmHoldSeconds + dt else 0
  let afterTarget :=
    if CALM_HOLD_FOR_TARGET_CHANGE ≤ calmHold ∧ newState = State3.CALMA ∧
        randMidi ≠ targetMidi then
      (randMidi, (0 : ℚ), max 0 (s.chaosEqSeconds - TARGET_CHANGE_REWARD))
    else
      (targetMidi, calmHold, s.chaosEqSeconds)
  let dtSeconds := dt / 1000
  let newScore := s.scoreSeconds + dtSeconds
  let accrued :=
    if newState = State3.CAOS then afterTarget.2.2 + dtSeconds
    else if newState = State3.TENSION then afterTarget.2.2 + dtSeconds * UNSTABLE_WEIGHT
    else afterTarget.2.2
  let newChaos := clamp accrued 0 CHAOS_MAX
  { s with energy := newEnergy, currentState := newState,
           targetMidi := some afterTarget.1,
           calmHoldSeconds := afterTarget.2.1,
           scoreSeconds := newScore, chaosEqSeconds := newChaos,
           isGameOver := decide (CHAOS_MAX ≤ newChaos) }

/-- Source function updateCreatureGame(freqsHz, dt): frozen after game over,
no-op before startGame (null target), otherwise grace-silence policy followed
by the resolved tick. -/
def updateCreatureGame (mu : ℚ → ℚ) (randMidi : ℚ) (freqsHz : List ℚ)
    (dt : ℚ) (s : CreatureState) : CreatureState :=
  if s.isGameOver then s
  else
    let s0 := { s with time := s.time + dt }
    let validFreqs := filterValidFrequencies freqsHz
    match s0.targetMidi with
    | none => s0
    | some targetMidi =>
      if validFreqs.length = 0 then
        let s1 := { s0 with graceSilenceTimer := s0.graceSilenceTimer + dt }
        if GRACE_SILENCE ≤ s1.graceSilenceTimer then
          creatureResolve randMidi 999 dt targetMidi
            { s1 with lastValidFreqsCount := 0 }
        else s1
      else
        let s1 := { s0 with graceSilenceTimer := 0,
                            lastValidFreqsCount := validFreqs.length }
        match calculateMaxError mu validFreqs targetMidi with
        | none => s1
        | some maxError => creatureResolve randMidi maxError dt targetMidi s1

/-- Source function startGame: the freshly initialised module state; the
first random target note is the oracle argument. -/
def startGame (firstTargetMidi : ℚ) : CreatureState :=
  { energy := 0.9, currentState := State3.CALMA, time := 0,
    graceSilenceTimer := 0, targetMidi := some firstTargetMidi,
    scoreSeconds := 0, chaosEqSeconds := 0, isGameOver := false,
    calmHoldSeconds := 0, lastValidFreqsCount := 0 }

/-- Fold a list of per-tick inputs (random-target oracle, frequency list,
dt in ms) through updateCreatureGame. -/
def runCreature (mu : ℚ → ℚ) (inputs : List (ℚ × List ℚ × ℚ))
    (s : CreatureState) : CreatureState :=
  inputs.foldl (fun st inp => updateCreatureGame mu inp.1 inp.2.1 inp.2.2 st) s

/-- Invariant of the creature game claimed by the spec: energy stays inside
the unit interval and doom stays inside [0, CHAOS_MAX]. -/
def CreatureInv (s : CreatureState) : Prop :=
  0 ≤ s.energy ∧ s.energy ≤ 1 ∧ 0 ≤ s.chaosEqSeconds ∧ s.chaosEqSeconds ≤ CHAOS_MAX

/-- Concrete creature state about to earn the calm-hold target change, used
to exhibit the doom reward actually reducing accumulated doom. -/
def sCalmHold : CreatureState :=
  { startGame 69 with chaosEqSeconds := 5, calmHoldSeconds := 1950 }

end CreatureGame

namespace Pitch

/-- minFrequency = 80 Hz (pitch-detection module). -/
def minFrequency : ℚ := 80

/-- maxFrequency = 1000 Hz (pitch-detection module). -/
def maxFrequency : ℚ := 1000

/-- minSeparation = 0.15, the 15 percent relative proximity bound. -/
def minSeparation : ℚ := 0.15

/-- Duplicate test of findAdditionalPitches against one already-accepted
candidate: relative distance below 15 percent, or the frequency ratio or its
reciprocal within 0.1 of an integer (Math.round(x) is the floor of x + 1/2,
which is exactly Mathlib round on the rationals). -/
def isDuplicateOf (pitch existing : ℚ) : Bool :=
  decide (|pitch - existing| / existing < minSeparation) ||
  decide (|pitch / existing - (round (pitch / existing) : ℚ)| < 0.1) ||
  decide (|existing / pitch - (round (existing / pitch) : ℚ)| < 0.1)

/-- Duplicate test against every already-accepted candidate (the source loops
with break; List.any matches). -/
def isDuplicate (pitch : ℚ) (accepted : List ℚ) : Bool :=
  accepted.any (isDuplicateOf pitch)

/-- Acceptance test applied to the detector output inside
findAdditionalPitches: truthy, positive, inside the detection band, and not a
duplicate of any already-accepted candidate. -/
def acceptedPitch (pitch : ℚ) (accepted : List ℚ) : Bool :=
  decide (0 < pitch) && decide (minFrequency ≤ pitch) &&
  decide (pitch ≤ maxFrequency) && !(isDuplicate pitch accepted)

/-- Loop body of findAdditionalPitches: the AMDF detector is invoked on the
same audio buffer each iteration, so its (deterministic) output is the single
Option value amdfPitch; each of the up-to-count iterations accepts it only if
it passes acceptedPitch against existing plus previously accepted pitches. -/
def findAdditionalPitchesLoop (amdfPitch : Option ℚ) (existingPitches : List ℚ)
    (count : ℕ) : ℕ → List ℚ → List ℚ
  | 0, acc => acc
  | n + 1, acc =>
    if acc.length < count then
      match amdfPitch with
      | none => findAdditionalPitchesLoop amdfPitch existingPitches count n acc
      | some pitch =>
        if acceptedPitch pitch (existingPitches ++ acc) then
          findAdditionalPitchesLoop amdfPitch existingPitches count n (acc ++ [pitch])
        else
          findAdditionalPitchesLoop amdfPitch existingPitches count n acc
    else acc

/-- Source function findAdditionalPitches, with the external AMDF detector
result abstracted as amdfPitch. -/
def findAdditionalPitches (amdfPitch : Option ℚ) (existingPitches : List ℚ)
    (count : ℕ) : List ℚ :=
  findAdditionalPitchesLoop amdfPitch existingPitches count count []

end Pitch

/-! ## Helper lemmas -/

theorem clamp01_nonneg (v : ℚ) : 0 ≤ clamp v 0 1 := le_max_left 0 _

theorem clamp01_le_one (v : ℚ) : clamp v 0 1 ≤ 1 :=
  max_le (by norm_num) (min_le_left 1 v)

theorem lerp_mem_unit {a b : ℚ} (ha0 : 0 ≤ a) (ha1 : a ≤ 1) (hb0 : 0 ≤ b)
    (hb1 : b ≤ 1) : 0 ≤ lerp a b ENERGY_LERP ∧ lerp a b ENERGY_LERP ≤ 1 := by
  unfold lerp ENERGY_LERP
  constructor <;> nlinarith

theorem proximity_mem_unit (e : ℚ) :
    0 ≤ 1 - clamp (e / 2.0) 0 1 ∧ 1 - clamp (e / 2.0) 0 1 ≤ 1 := by
  have h1 := clamp01_nonneg (e / 2.0)
  have h2 := clamp01_le_one (e / 2.0)
  constructor <;> linarith

theorem foldl_max_mem (es : List ℚ) (e : ℚ) : es.foldl max e ∈ e :: es := by
  induction es generalizing e with
  | nil => simp
  | cons x xs ih =>
    rw [List.foldl_cons]
    rcases List.mem_cons.mp (ih (max e x)) with h1 | h1
    · rw [h1]
      rcases max_choice e x with h2 | h2 <;> rw [h2] <;> simp
    · exact List.mem_cons_of_mem _ (List.mem_cons_of_mem _ h1)

theorem le_foldl_max (es : List ℚ) (e : ℚ) :
    e ≤ es.foldl max e ∧ ∀ x ∈ es, x ≤ es.foldl max e := by
  induction es generalizing e with
  | nil => simp
  | cons y ys ih =>
    have h := ih (max e y)
    rw [List.foldl_cons]
    refine ⟨le_trans (le_max_left e y) h.1, ?_⟩
    intro x hx
    rcases List.mem_cons.mp hx with h1 | h1
    · rw [h1]
      exact le_trans (le_max_right e y) h.1
    · exact h.2 x h1

theorem filterMap_all_some {α β : Type} (f : α → Option β) (g : α → β)
    (l : List α) (h : ∀ a ∈ l, f a = some (g a)) : l.filterMap f = l.map g := by
  induction l with
  | nil => simp
  | cons x xs ih =>
    have hx := h x (List.mem_cons_self x xs)
    simp [List.filterMap_cons, hx, ih fun a ha => h a (List.mem_cons_of_mem x ha)]

theorem mem_filterValid {f : ℚ} {l : List ℚ} (h : f ∈ filterValidFrequencies l) :
    FREQ_MIN ≤ f ∧ f ≤ FREQ_MAX := by
  have := List.mem_filter.mp h
  simpa using this.2

theorem filterValid_pos {f : ℚ} {l : List ℚ} (h : f ∈ filterValidFrequencies l) :
    0 < f := lt_of_lt_of_le (by norm_num [FREQ_MIN]) (mem_filterValid h).1

theorem seq_calcMaxError_refilter (mu : ℚ → ℚ) (freqsHz : List ℚ) (t : ℚ) :
    SeqGame.calculateMaxError mu (filterValidFrequencies freqsHz) t =
      SeqGame.calculateMaxError mu freqsHz t := by
  unfold SeqGame.calculateMaxError filterValidFrequencies
  rw [List.filter_filter]
  simp

theorem seq_calcMaxError_empty (mu : ℚ → ℚ) (freqsHz : List ℚ) (t : ℚ)
    (h : filterValidFrequencies freqsHz = []) :
    SeqGame.calculateMaxError mu freqsHz t = none := by
  unfold SeqGame.calculateMaxError
  simp [h]

theorem creature_calcMaxError_empty (mu : ℚ → ℚ) (freqsHz : List ℚ) (t : ℚ)
    (h : filterValidFrequencies freqsHz = []) :
    CreatureGame.calculateMaxError mu freqsHz t = none := by
  unfold CreatureGame.calculateMaxError
  simp [h]

theorem seq_calcMaxError_max (mu : ℚ → ℚ) (freqsHz : List ℚ) (targetFreq : ℚ)
    (htarget : 0 < targetFreq) (hvalid : filterValidFrequencies freqsHz ≠ []) :
    ∃ m, SeqGame.calculateMaxError mu freqsHz targetFreq = some m ∧
      m ∈ (filterValidFrequencies freqsHz).map (fun f => |mu f - mu targetFreq|) ∧
      ∀ e ∈ (filterValidFrequencies freqsHz).map (fun f => |mu f - mu targetFreq|),
        e ≤ m := by
  have htm : frequencyToMidi mu targetFreq = some (mu targetFreq) := by
    simp [frequencyToMidi, not_le.mpr htarget]
  have herr : (filterValidFrequencies freqsHz).filterMap
      (fun freq => (frequencyToMidi mu freq).map fun midi => |midi - mu targetFreq|) =
      (filterValidFrequencies freqsHz).map (fun f => |mu f - mu targetFreq|) := by
    refine filterMap_all_some _ _ _ fun a ha => ?_
    simp [frequencyToMidi, not_le.mpr (filterValid_pos ha)]
  obtain ⟨e, es, hl⟩ := List.exists_cons_of_ne_nil hvalid
  rw [hl] at herr
  unfold SeqGame.calculateMaxError
  rw [hl]
  simp only [List.isEmpty_cons, htm, herr, List.map_cons, Bool.false_eq_true,
    if_false]
  refine ⟨(es.map fun f => |mu f - mu targetFreq|).foldl max (|mu e - mu targetFreq|),
    rfl, foldl_max_mem _ _, ?_⟩
  intro x hx
  rcases List.mem_cons.mp hx with h1 | h1
  · rw [h1]
    exact (le_foldl_max _ _).1
  · exact (le_foldl_max _ _).2 x h1

theorem creature_calcMaxError_max (mu : ℚ → ℚ) (freqsHz : List ℚ)
    (targetMidi : ℚ) (hvalid : filterValidFrequencies freqsHz ≠ []) :
    ∃ m, CreatureGame.calculateMaxError mu freqsHz targetMidi = some m ∧
      m ∈ (filterValidFrequencies freqsHz).map (fun f => |mu f - targetMidi|) ∧
      ∀ e ∈ (filterValidFrequencies freqsHz).map (fun f => |mu f - targetMidi|),
        e ≤ m := by
  have herr : (filterValidFrequencies freqsHz).filterMap
      (fun freq => (frequencyToMidi mu freq).map fun midi => |midi - targetMidi|) =
      (filterValidFrequencies freqsHz).map (fun f => |mu f - targetMidi|) := by
    refine filterMap_all_some _ _ _ fun a ha => ?_
    simp [frequencyToMidi, not_le.mpr (filterValid_pos ha)]
  obtain ⟨e, es, hl⟩ := List.exists_cons_of_ne_nil hvalid
  rw [hl] at herr
  unfold CreatureGame.calculateMaxError
  rw [hl]
  simp only [List.isEmpty_cons, herr, List.map_cons, Bool.false_eq_true, if_false]
  refine ⟨(es.map fun f => |mu f - targetMidi|).foldl max (|mu e - targetMidi|),
    rfl, foldl_max_mem _ _, ?_⟩
  intro x hx
  rcases List.mem_cons.mp hx with h1 | h1
  · rw [h1]
    exact (le_foldl_max _ _).1
  · exact (le_foldl_max _ _).2 x h1


theorem nextState_eq_specTransition (ce cx he hx : ℚ) (prev : State3) (err : ℚ) :
    nextState ce cx he hx prev err = specTransition ce cx he hx prev err := by
  cases prev <;> unfold nextState specTransition <;> split_ifs <;> simp_all

theorem seqNextState_999 (prev : State3) :
    SeqGame.seqNextState prev 999 = State3.CAOS := by
  cases prev <;> simp [SeqGame.seqNextState, nextState, SeqGame.CAOS_THRESHOLD_ENTER,
    SeqGame.CALMA_THRESHOLD_ENTER, SeqGame.CALM_THRESHOLD, SeqGame.TENSION_THRESHOLD] <;>
    norm_num

theorem creatureNextState_999 (prev : State3) :
    CreatureGame.creatureNextState prev 999 = State3.CAOS := by
  cases prev <;> simp [CreatureGame.creatureNextState, nextState,
    CreatureGame.CAOS_THRESHOLD_ENTER, CreatureGame.CALMA_THRESHOLD_ENTER,
    CreatureGame.CALM_THRESHOLD, CreatureGame.UNSTABLE_THRESHOLD] <;> norm_num

theorem resolveTick_currentState (err dt : ℚ) (s : SeqGame.SeqState) :
    (SeqGame.resolveTick err dt s).currentState =
      SeqGame.seqNextState s.currentState err := by
  simp only [SeqGame.resolveTick]
  split_ifs <;> rfl

theorem resolveTick_survivalTime (err dt : ℚ) (s : SeqGame.SeqState) :
    (SeqGame.resolveTick err dt s).survivalTime = s.survivalTime + dt / 1000 := by
  simp only [SeqGame.resolveTick]
  split_ifs <;> rfl

theorem resolveTick_energy (err dt : ℚ) (s : SeqGame.SeqState) :
    (SeqGame.resolveTick err dt s).energy =
      lerp s.energy (1 - clamp (err / 2.0) 0 1) ENERGY_LERP := by
  simp only [SeqGame.resolveTick]
  split_ifs <;> rfl

theorem resolveTick_grace (err dt : ℚ) (s : SeqGame.SeqState) :
    (SeqGame.resolveTick err dt s).graceSilenceTimer = s.graceSilenceTimer := by
  simp only [SeqGame.resolveTick]
  split_ifs <;> rfl

theorem resolveTick_noteIndex (err dt : ℚ) (s : SeqGame.SeqState) :
    (SeqGame.resolveTick err dt s).currentNoteIndex = s.currentNoteIndex := by
  simp only [SeqGame.resolveTick]
  split_ifs <;> rfl

theorem drained_eq_drainOf (dt L : ℚ) (ns : State3) :
    (if ns = State3.CAOS then L - dt / 1000 * SeqGame.CHAOS_DRAIN_RATE
     else if ns = State3.TENSION then L - dt / 1000 * SeqGame.TENSION_DRAIN_RATE
     else L) = L - dt / 1000 * SeqGame.drainOf ns := by
  cases ns <;> simp [SeqGame.drainOf]

theorem resolveTick_life (err dt : ℚ) (s : SeqGame.SeqState) :
    (SeqGame.resolveTick err dt s).life =
      clamp (s.life - dt / 1000 *
          SeqGame.drainOf (SeqGame.seqNextState s.currentState err))
        0 SeqGame.INITIAL_LIFE := by
  simp only [SeqGame.resolveTick, drained_eq_drainOf]
  split_ifs <;> rfl

theorem resolveTick_gameOver (err dt : ℚ) (s : SeqGame.SeqState) :
    ((SeqGame.resolveTick err dt s).life ≤ 0 →
      (SeqGame.resolveTick err dt s).isGameOver = true ∧
      (SeqGame.resolveTick err dt s).gamePhase = GamePhase.GAME_OVER) ∧
    (¬ (SeqGame.resolveTick err dt s).life ≤ 0 →
      (SeqGame.resolveTick err dt s).isGameOver = s.isGameOver ∧
      (SeqGame.resolveTick err dt s).gamePhase = s.gamePhase) := by
  simp only [SeqGame.resolveTick, drained_eq_drainOf]
  split_ifs with h
  · exact ⟨fun _ => ⟨rfl, rfl⟩, fun hn => absurd h hn⟩
  · exact ⟨fun hl => absurd hl h, fun _ => ⟨rfl, rfl⟩⟩

theorem seqAdvance_fields (dt : ℚ) (s : SeqGame.SeqState) :
    (SeqGame.seqAdvance dt s).currentState = s.currentState ∧
    (SeqGame.seqAdvance dt s).energy = s.energy ∧
    (SeqGame.seqAdvance dt s).life = s.life ∧
    (SeqGame.seqAdvance dt s).survivalTime = s.survivalTime ∧
    (SeqGame.seqAdvance dt s).isGameOver = s.isGameOver ∧
    (SeqGame.seqAdvance dt s).gamePhase = s.gamePhase ∧
    (SeqGame.seqAdvance dt s).graceSilenceTimer = s.graceSilenceTimer := by
  simp only [SeqGame.seqAdvance]
  split_ifs <;> simp

theorem seqAdvance_index (dt : ℚ) (s : SeqGame.SeqState) :
    (SeqGame.seqAdvance dt s).currentNoteIndex =
      if SeqGame.noteDurationOf s.currentNoteIndex * 1000 ≤ s.currentNoteTimer + dt
      then (s.currentNoteIndex + 1) % 5 else s.currentNoteIndex := by
  simp only [SeqGame.seqAdvance]
  split_ifs <;> simp

theorem seq_playingTick_frozen (mu : ℚ → ℚ) (nf : ℕ → ℚ) (freqs : List ℚ)
    (dt : ℚ) (s : SeqGame.SeqState) (hidx : s.currentNoteIndex < 5)
    (hempty : filterValidFrequencies freqs = [])
    (hgrace : s.graceSilenceTimer + dt < GRACE_SILENCE) :
    (SeqGame.playingTick mu nf freqs dt s).currentState = s.currentState ∧
    (SeqGame.playingTick mu nf freqs dt s).energy = s.energy ∧
    (SeqGame.playingTick mu nf freqs dt s).life = s.life ∧
    (SeqGame.playingTick mu nf freqs dt s).survivalTime = s.survivalTime ∧
    (SeqGame.playingTick mu nf freqs dt s).isGameOver = s.isGameOver ∧
    (SeqGame.playingTick mu nf freqs dt s).gamePhase = s.gamePhase ∧
    (SeqGame.playingTick mu nf freqs dt s).graceSilenceTimer =
      s.graceSilenceTimer + dt := by
  have hg2 : ¬ GRACE_SILENCE ≤ (SeqGame.seqAdvance dt s).graceSilenceTimer + dt := by
    rw [(seqAdvance_fields dt s).2.2.2.2.2.2]
    exact not_le.mpr hgrace
  simp only [SeqGame.playingTick, SeqGame.getCurrentTarget, if_pos hidx, hempty]
  simp only [List.length_nil, eq_self_iff_true, if_true, hg2, if_false]
  exact ⟨(seqAdvance_fields dt s).1, (seqAdvance_fields dt s).2.1,
    (seqAdvance_fields dt s).2.2.1, (seqAdvance_fields dt s).2.2.2.1,
    (seqAdvance_fields dt s).2.2.2.2.1, (seqAdvance_fields dt s).2.2.2.2.2.1,
    by rw [(seqAdvance_fields dt s).2.2.2.2.2.2]⟩

theorem seq_playingTick_chaos (mu : ℚ → ℚ) (nf : ℕ → ℚ) (freqs : List ℚ)
    (dt : ℚ) (s : SeqGame.SeqState) (hidx : s.currentNoteIndex < 5)
    (hempty : filterValidFrequencies freqs = [])
    (hgrace : GRACE_SILENCE ≤ s.graceSilenceTimer + dt) :
    (SeqGame.playingTick mu nf freqs dt s).currentState = State3.CAOS ∧
    (SeqGame.playingTick mu nf freqs dt s).graceSilenceTimer =
      s.graceSilenceTimer + dt ∧
    (SeqGame.playingTick mu nf freqs dt s).survivalTime =
      s.survivalTime + dt / 1000 ∧
    (SeqGame.playingTick mu nf freqs dt s).life =
      clamp (s.life - dt / 1000 * SeqGame.CHAOS_DRAIN_RATE) 0 SeqGame.INITIAL_LIFE := by
  have hg2 : GRACE_SILENCE ≤ (SeqGame.seqAdvance dt s).graceSilenceTimer + dt := by
    rw [(seqAdvance_fields dt s).2.2.2.2.2.2]
    exact hgrace
  simp only [SeqGame.playingTick, SeqGame.getCurrentTarget, if_pos hidx, hempty]
  simp only [List.length_nil, eq_self_iff_true, if_true, if_pos hg2]
  set t : SeqGame.SeqState :=
    { SeqGame.seqAdvance dt s with
        graceSilenceTimer := (SeqGame.seqAdvance dt s).graceSilenceTimer + dt } with ht
  have htst : t.currentState = s.currentState := (seqAdvance_fields dt s).1
  have htlife : t.life = s.life := (seqAdvance_fields dt s).2.2.1
  have htsurv : t.survivalTime = s.survivalTime := (seqAdvance_fields dt s).2.2.2.1
  have htgr : t.graceSilenceTimer = s.graceSilenceTimer + dt := by
    rw [ht]
    show (SeqGame.seqAdvance dt s).graceSilenceTimer + dt = _
    rw [(seqAdvance_fields dt s).2.2.2.2.2.2]
  refine ⟨?_, ?_, ?_, ?_⟩
  · rw [resolveTick_currentState, htst, seqNextState_999]
  · rw [resolveTick_grace, htgr]
  · rw [resolveTick_survivalTime, htsurv]
  · rw [resolveTick_life, htst, htlife, seqNextState_999]
    rfl

theorem seq_playingTick_signal (mu : ℚ → ℚ) (nf : ℕ → ℚ) (freqs : List ℚ)
    (dt : ℚ) (s : SeqGame.SeqState) (err : ℚ) (hidx : s.currentNoteIndex < 5)
    (herr : SeqGame.calculateMaxError mu freqs (nf s.currentNoteIndex) = some err) :
    (SeqGame.playingTick mu nf freqs dt s).currentState =
      SeqGame.seqNextState s.currentState err ∧
    (SeqGame.playingTick mu nf freqs dt s).graceSilenceTimer = 0 ∧
    (SeqGame.playingTick mu nf freqs dt s).survivalTime =
      s.survivalTime + dt / 1000 ∧
    (SeqGame.playingTick mu nf freqs dt s).energy =
      lerp s.energy (1 - clamp (err / 2.0) 0 1) ENERGY_LERP ∧
    (SeqGame.playingTick mu nf freqs dt s).life =
      clamp (s.life - dt / 1000 *
          SeqGame.drainOf (SeqGame.seqNextState s.currentState err))
        0 SeqGame.INITIAL_LIFE := by
  have hvne : filterValidFrequencies freqs ≠ [] := by
    intro hnil
    rw [seq_calcMaxError_empty mu freqs _ hnil] at herr
    exact Option.noConfusion herr
  have hlen : ¬ (filterValidFrequencies freqs).length = 0 := by
    simpa [List.length_eq_zero] using hvne
  have herr2 : SeqGame.calculateMaxError mu (filterValidFrequencies freqs)
      (nf s.currentNoteIndex) = some err := by
    rw [seq_calcMaxError_refilter]
    exact herr
  simp only [SeqGame.playingTick, SeqGame.getCurrentTarget, if_pos hidx,
    if_neg hlen, herr2]
  set t : SeqGame.SeqState :=
    { SeqGame.seqAdvance dt s with graceSilenceTimer := 0 } with ht
  have htst : t.currentState = s.currentState := (seqAdvance_fields dt s).1
  have hten : t.energy = s.energy := (seqAdvance_fields dt s).2.1
  have htlife : t.life = s.life := (seqAdvance_fields dt s).2.2.1
  have htsurv : t.survivalTime = s.survivalTime := (seqAdvance_fields dt s).2.2.2.1
  refine ⟨?_, ?_, ?_, ?_, ?_⟩
  · rw [resolveTick_currentState, htst]
  · rw [resolveTick_grace]
  · rw [resolveTick_survivalTime, htsurv]
  · rw [resolveTick_energy, hten]
  · rw [resolveTick_life, htst, htlife]

theorem seq_update_gameOver (mu : ℚ → ℚ) (nf : ℕ → ℚ) (freqs : List ℚ)
    (dt : ℚ) (s : SeqGame.SeqState) (h : s.isGameOver = true) :
    SeqGame.updateSequenceGame mu nf freqs dt s = s := by
  simp [SeqGame.updateSequenceGame, h]

theorem seq_update_playing (mu : ℚ → ℚ) (nf : ℕ → ℚ) (freqs : List ℚ)
    (dt : ℚ) (s : SeqGame.SeqState) (hover : s.isGameOver = false)
    (hphase : s.gamePhase = GamePhase.PLAYING) :
    SeqGame.updateSequenceGame mu nf freqs dt s =
      SeqGame.playingTick mu nf freqs dt { s with time := s.time + dt } := by
  simp [SeqGame.updateSequenceGame, hover, hphase]

theorem clamp_mem (v mn mx : ℚ) (h : mn ≤ mx) :
    mn ≤ clamp v mn mx ∧ clamp v mn mx ≤ mx :=
  ⟨le_max_left _ _, max_le h (min_le_left _ _)⟩

theorem creatureResolve_currentState (rand err dt tm : ℚ)
    (s : CreatureGame.CreatureState) :
    (CreatureGame.creatureResolve rand err dt tm s).currentState =
      CreatureGame.creatureNextState s.currentState err := rfl

theorem creatureResolve_energy (rand err dt tm : ℚ)
    (s : CreatureGame.CreatureState) :
    (CreatureGame.creatureResolve rand err dt tm s).energy =
      lerp s.energy (1 - clamp (err / 2.0) 0 1) ENERGY_LERP := rfl

theorem creatureResolve_score (rand err dt tm : ℚ)
    (s : CreatureGame.CreatureState) :
    (CreatureGame.creatureResolve rand err dt tm s).scoreSeconds =
      s.scoreSeconds + dt / 1000 := rfl

theorem creatureResolve_chaos_eq (rand err dt tm : ℚ)
    (s : CreatureGame.CreatureState) :
    ∃ v, (CreatureGame.creatureResolve rand err dt tm s).chaosEqSeconds =
      clamp v 0 CreatureGame.CHAOS_MAX :=
  ⟨_, rfl⟩

theorem creatureResolve_chaos_bounds (rand err dt tm : ℚ)
    (s : CreatureGame.CreatureState) :
    0 ≤ (CreatureGame.creatureResolve rand err dt tm s).chaosEqSeconds ∧
    (CreatureGame.creatureResolve rand err dt tm s).chaosEqSeconds ≤
      CreatureGame.CHAOS_MAX := by
  obtain ⟨v, hv⟩ := creatureResolve_chaos_eq rand err dt tm s
  rw [hv]
  exact clamp_mem v 0 _ (by norm_num [CreatureGame.CHAOS_MAX])

theorem creature_update_gameOver (mu : ℚ → ℚ) (rand : ℚ) (freqs : List ℚ)
    (dt : ℚ) (s : CreatureGame.CreatureState) (h : s.isGameOver = true) :
    CreatureGame.updateCreatureGame mu rand freqs dt s = s := by
  simp [CreatureGame.updateCreatureGame, h]

theorem creature_update_frozen (mu : ℚ → ℚ) (rand : ℚ) (freqs : List ℚ)
    (dt : ℚ) (s : CreatureGame.CreatureState) (tm : ℚ)
    (hover : s.isGameOver = false) (htm : s.targetMidi = some tm)
    (hempty : filterValidFrequencies freqs = [])
    (hgrace : s.graceSilenceTimer + dt < GRACE_SILENCE) :
    (CreatureGame.updateCreatureGame mu rand freqs dt s).currentState =
      s.currentState ∧
    (CreatureGame.updateCreatureGame mu rand freqs dt s).energy = s.energy ∧
    (CreatureGame.updateCreatureGame mu rand freqs dt s).chaosEqSeconds =
      s.chaosEqSeconds ∧
    (CreatureGame.updateCreatureGame mu rand freqs dt s).scoreSeconds =
      s.scoreSeconds ∧
    (CreatureGame.updateCreatureGame mu rand freqs dt s).isGameOver = false ∧
    (CreatureGame.updateCreatureGame mu rand freqs dt s).graceSilenceTimer =
      s.graceSilenceTimer + dt := by
  have hg2 : ¬ GRACE_SILENCE ≤ s.graceSilenceTimer + dt := not_le.mpr hgrace
  simp only [CreatureGame.updateCreatureGame, hover, Bool.false_eq_true,
    if_false, htm, hempty]
  simp only [List.length_nil, eq_self_iff_true, if_true, hg2, if_false]
  exact ⟨trivial, trivial, trivial, trivial, trivial, trivial⟩

theorem creature_update_chaos (mu : ℚ → ℚ) (rand : ℚ) (freqs : List ℚ)
    (dt : ℚ) (s : CreatureGame.CreatureState) (tm : ℚ)
    (hover : s.isGameOver = false) (htm : s.targetMidi = some tm)
    (hempty : filterValidFrequencies freqs = [])
    (hgrace : GRACE_SILENCE ≤ s.graceSilenceTimer + dt) :
    (CreatureGame.updateCreatureGame mu rand freqs dt s).currentState =
      State3.CAOS ∧
    (CreatureGame.updateCreatureGame mu rand freqs dt s).graceSilenceTimer =
      s.graceSilenceTimer + dt := by
  simp only [CreatureGame.updateCreatureGame, hover, Bool.false_eq_true,
    if_false, htm, hempty]
  simp only [List.length_nil, eq_self_iff_true, if_true, if_pos hgrace]
  constructor
  · rw [creatureResolve_currentState]
    exact creatureNextState_999 _
  · rw [show ∀ t : CreatureGame.CreatureState,
        (CreatureGame.creatureResolve rand 999 dt tm t).graceSilenceTimer =
          t.graceSilenceTimer from fun t => rfl]

theorem creature_update_signal_grace (mu : ℚ → ℚ) (rand : ℚ) (freqs : List ℚ)
    (dt : ℚ) (s : CreatureGame.CreatureState) (tm : ℚ)
    (hover : s.isGameOver = false) (htm : s.targetMidi = some tm)
    (hvalid : filterValidFrequencies freqs ≠ []) :
    (CreatureGame.updateCreatureGame mu rand freqs dt s).graceSilenceTimer = 0 := by
  have hlen : ¬ (filterValidFrequencies freqs).length = 0 := by
    simpa [List.length_eq_zero] using hvalid
  simp only [CreatureGame.updateCreatureGame, hover, Bool.false_eq_true,
    if_false, htm, if_neg hlen]
  rcases hc : CreatureGame.calculateMaxError mu (filterValidFrequencies freqs) tm
    with _ | err
  · rfl
  · rw [show ∀ t : CreatureGame.CreatureState,
        (CreatureGame.creatureResolve rand err dt tm t).graceSilenceTimer =
          t.graceSilenceTimer from fun t => rfl]

theorem seq_inv_of_fields {s t : SeqGame.SeqState} (h : SeqGame.SeqInv s)
    (he : t.energy = s.energy) (hl : t.life = s.life) : SeqGame.SeqInv t := by
  refine ⟨?_, ?_, ?_, ?_⟩
  · rw [he]
    exact h.1
  · rw [he]
    exact h.2.1
  · rw [hl]
    exact h.2.2.1
  · rw [hl]
    exact h.2.2.2

theorem seq_inv_clamp_life (v : ℚ) :
    0 ≤ clamp v 0 SeqGame.INITIAL_LIFE ∧ clamp v 0 SeqGame.INITIAL_LIFE ≤ 1 := by
  have h := clamp_mem v 0 SeqGame.INITIAL_LIFE (by norm_num [SeqGame.INITIAL_LIFE])
  refine ⟨h.1, le_trans h.2 (by norm_num [SeqGame.INITIAL_LIFE])⟩

theorem seq_inv_resolveTick (err dt : ℚ) (s : SeqGame.SeqState)
    (h : SeqGame.SeqInv s) : SeqGame.SeqInv (SeqGame.resolveTick err dt s) := by
  obtain ⟨he0, he1, hl0, hl1⟩ := h
  have hp := proximity_mem_unit err
  have hE := lerp_mem_unit he0 he1 hp.1 hp.2
  have hL := seq_inv_clamp_life
    (s.life - dt / 1000 * SeqGame.drainOf (SeqGame.seqNextState s.currentState err))
  refine ⟨?_, ?_, ?_, ?_⟩
  · rw [resolveTick_energy]
    exact hE.1
  · rw [resolveTick_energy]
    exact hE.2
  · rw [resolveTick_life]
    exact hL.1
  · rw [resolveTick_life]
    exact hL.2

theorem seq_inv_playingTick (mu : ℚ → ℚ) (nf : ℕ → ℚ) (freqs : List ℚ)
    (dt : ℚ) (s : SeqGame.SeqState) (h : SeqGame.SeqInv s) :
    SeqGame.SeqInv (SeqGame.playingTick mu nf freqs dt s) := by
  have hAdv : SeqGame.SeqInv (SeqGame.seqAdvance dt s) :=
    seq_inv_of_fields h (seqAdvance_fields dt s).2.1 (seqAdvance_fields dt s).2.2.1
  unfold SeqGame.playingTick SeqGame.getCurrentTarget
  by_cases hidx : s.currentNoteIndex < 5
  · rw [if_pos hidx]
    dsimp only
    split_ifs with h1 h2
    · exact seq_inv_resolveTick _ _ _ (seq_inv_of_fields hAdv rfl rfl)
    · exact seq_inv_of_fields hAdv rfl rfl
    · rcases hc : SeqGame.calculateMaxError mu (filterValidFrequencies freqs)
        (nf s.currentNoteIndex) with _ | err <;> simp only [hc]
      · exact seq_inv_of_fields hAdv rfl rfl
      · exact seq_inv_resolveTick _ _ _ (seq_inv_of_fields hAdv rfl rfl)
  · rw [if_neg hidx]
    exact seq_inv_of_fields h rfl rfl

theorem seq_inv_update (mu : ℚ → ℚ) (nf : ℕ → ℚ) (freqs : List ℚ) (dt : ℚ)
    (s : SeqGame.SeqState) (h : SeqGame.SeqInv s) :
    SeqGame.SeqInv (SeqGame.updateSequenceGame mu nf freqs dt s) := by
  simp only [SeqGame.updateSequenceGame]
  split_ifs
  · exact h
  · exact seq_inv_of_fields h rfl rfl
  · exact seq_inv_of_fields h rfl rfl
  · exact seq_inv_of_fields h rfl rfl
  · exact seq_inv_of_fields h rfl rfl
  · exact seq_inv_of_fields h rfl rfl
  · exact seq_inv_playingTick _ _ _ _ _ (seq_inv_of_fields h rfl rfl)

theorem seq_run_cons (mu : ℚ → ℚ) (nf : ℕ → ℚ) (i : List ℚ × ℚ)
    (is : List (List ℚ × ℚ)) (s : SeqGame.SeqState) :
    SeqGame.runSeq mu nf (i :: is) s =
      SeqGame.runSeq mu nf is (SeqGame.updateSequenceGame mu nf i.1 i.2 s) := rfl

theorem seq_inv_run (mu : ℚ → ℚ) (nf : ℕ → ℚ) (inputs : List (List ℚ × ℚ))
    (s : SeqGame.SeqState) (h : SeqGame.SeqInv s) :
    SeqGame.SeqInv (SeqGame.runSeq mu nf inputs s) := by
  induction inputs generalizing s with
  | nil => exact h
  | cons i is ih =>
    rw [seq_run_cons]
    exact ih _ (seq_inv_update _ _ _ _ _ h)

theorem seq_inv_start : SeqGame.SeqInv SeqGame.startSequenceGame := by
  refine ⟨?_, ?_, ?_, ?_⟩ <;>
    norm_num [SeqGame.startSequenceGame, SeqGame.INITIAL_LIFE]

theorem creature_inv_of_fields {s t : CreatureGame.CreatureState}
    (h : CreatureGame.CreatureInv s) (he : t.energy = s.energy)
    (hc : t.chaosEqSeconds = s.chaosEqSeconds) : CreatureGame.CreatureInv t := by
  refine ⟨?_, ?_, ?_, ?_⟩
  · rw [he]
    exact h.1
  · rw [he]
    exact h.2.1
  · rw [hc]
    exact h.2.2.1
  · rw [hc]
    exact h.2.2.2

theorem creature_inv_resolve (rand err dt tm : ℚ)
    (s : CreatureGame.CreatureState) (h : CreatureGame.CreatureInv s) :
    CreatureGame.CreatureInv (CreatureGame.creatureResolve rand err dt tm s) := by
  obtain ⟨he0, he1, hc0, hc1⟩ := h
  have hp := proximity_mem_unit err
  have hE := lerp_mem_unit he0 he1 hp.1 hp.2
  have hC := creatureResolve_chaos_bounds rand err dt tm s
  refine ⟨?_, ?_, hC.1, hC.2⟩
  · rw [creatureResolve_energy]
    exact hE.1
  · rw [creatureResolve_energy]
    exact hE.2

theorem creature_inv_update (mu : ℚ → ℚ) (rand : ℚ) (freqs : List ℚ) (dt : ℚ)
    (s : CreatureGame.CreatureState) (h : CreatureGame.CreatureInv s) :
    CreatureGame.CreatureInv (CreatureGame.updateCreatureGame mu rand freqs dt s) := by
  rcases htm : s.targetMidi with _ | tm
  · simp only [CreatureGame.updateCreatureGame, htm]
    split_ifs
    · exact h
    · exact creature_inv_of_fields h rfl rfl
  · simp only [CreatureGame.updateCreatureGame, htm]
    split_ifs
    · exact h
    · exact creature_inv_resolve _ _ _ _ _ (creature_inv_of_fields h rfl rfl)
    · exact creature_inv_of_fields h rfl rfl
    · rcases hc : CreatureGame.calculateMaxError mu (filterValidFrequencies freqs) tm
        with _ | err <;> simp only [hc]
      · exact creature_inv_of_fields h rfl rfl
      · exact creature_inv_resolve _ _ _ _ _ (creature_inv_of_fields h rfl rfl)

theorem creature_run_cons (mu : ℚ → ℚ) (i : ℚ × List ℚ × ℚ)
    (is : List (ℚ × List ℚ × ℚ)) (s : CreatureGame.CreatureState) :
    CreatureGame.runCreature mu (i :: is) s =
      CreatureGame.runCreature mu is
        (CreatureGame.updateCreatureGame mu i.1 i.2.1 i.2.2 s) := rfl

theorem creature_inv_run (mu : ℚ → ℚ) (inputs : List (ℚ × List ℚ × ℚ))
    (s : CreatureGame.CreatureState) (h : CreatureGame.CreatureInv s) :
    CreatureGame.CreatureInv (CreatureGame.runCreature mu inputs s) := by
  induction inputs generalizing s with
  | nil => exact h
  | cons i is ih =>
    rw [creature_run_cons]
    exact ih _ (creature_inv_update _ _ _ _ _ h)

theorem creature_inv_start (m0 : ℚ) :
    CreatureGame.CreatureInv (CreatureGame.startGame m0) := by
  refine ⟨?_, ?_, ?_, ?_⟩ <;>
    norm_num [CreatureGame.startGame, CreatureGame.CHAOS_MAX]

theorem resolveTick_life_le (err dt : ℚ) (s : SeqGame.SeqState) (hdt : 0 ≤ dt)
    (h0 : 0 ≤ s.life) : (SeqGame.resolveTick err dt s).life ≤ s.life := by
  rw [resolveTick_life]
  have hd : 0 ≤ dt / 1000 * SeqGame.drainOf (SeqGame.seqNextState s.currentState err) := by
    refine mul_nonneg (div_nonneg hdt (by norm_num)) ?_
    cases SeqGame.seqNextState s.currentState err <;>
      norm_num [SeqGame.drainOf, SeqGame.TENSION_DRAIN_RATE, SeqGame.CHAOS_DRAIN_RATE]
  unfold clamp
  exact max_le h0 (le_trans (min_le_right _ _) (by linarith))

theorem seq_playingTick_life_le (mu : ℚ → ℚ) (nf : ℕ → ℚ) (freqs : List ℚ)
    (dt : ℚ) (s : SeqGame.SeqState) (hdt : 0 ≤ dt) (h0 : 0 ≤ s.life) :
    (SeqGame.playingTick mu nf freqs dt s).life ≤ s.life := by
  have hAdv : (SeqGame.seqAdvance dt s).life = s.life := (seqAdvance_fields dt s).2.2.1
  have hAdvSt : (SeqGame.seqAdvance dt s).currentState = s.currentState :=
    (seqAdvance_fields dt s).1
  unfold SeqGame.playingTick SeqGame.getCurrentTarget
  by_cases hidx : s.currentNoteIndex < 5
  · rw [if_pos hidx]
    dsimp only
    split_ifs with h1 h2
    · refine le_trans (resolveTick_life_le _ _ _ hdt ?_) ?_
      · show (0 : ℚ) ≤ (SeqGame.seqAdvance dt s).life
        rw [hAdv]
        exact h0
      · show (SeqGame.seqAdvance dt s).life ≤ s.life
        rw [hAdv]
    · show (SeqGame.seqAdvance dt s).life ≤ s.life
      rw [hAdv]
    · rcases hc : SeqGame.calculateMaxError mu (filterValidFrequencies freqs)
        (nf s.currentNoteIndex) with _ | err <;> simp only [hc]
      · show (SeqGame.seqAdvance dt s).life ≤ s.life
        rw [hAdv]
      · refine le_trans (resolveTick_life_le _ _ _ hdt ?_) ?_
        · show (0 : ℚ) ≤ (SeqGame.seqAdvance dt s).life
          rw [hAdv]
          exact h0
        · show (SeqGame.seqAdvance dt s).life ≤ s.life
          rw [hAdv]
  · rw [if_neg hidx]

theorem seq_update_life_le (mu : ℚ → ℚ) (nf : ℕ → ℚ) (freqs : List ℚ) (dt : ℚ)
    (s : SeqGame.SeqState) (hdt : 0 ≤ dt) (h0 : 0 ≤ s.life) :
    (SeqGame.updateSequenceGame mu nf freqs dt s).life ≤ s.life := by
  simp only [SeqGame.updateSequenceGame]
  split_ifs
  · exact le_refl _
  · exact le_of_eq rfl
  · exact le_of_eq rfl
  · exact le_of_eq rfl
  · exact le_of_eq rfl
  · exact le_of_eq rfl
  · exact seq_playingTick_life_le _ _ _ _ _ hdt h0

/-! ## Claim theorems -/

/-- C3: the per-tick emotional-state transition is a pure function of only
the previous state and the current maximum error, given by the dead-band
rule of the spec (error ≤ CALM_ENTER → CALM; error > CHAOS_ENTER → CHAOS;
in the dead band stay CALM if previously CALM and error ≤ CALM_EXIT, stay
CHAOS if previously CHAOS and error ≥ CHAOS_EXIT, otherwise UNSTABLE), with
CALM_EXIT > CALM_ENTER and CHAOS_EXIT < CHAOS_ENTER in both game variants;
the resolved tick's new state never depends on energy or any other field. -/
theorem transition_pure_function_of_state_and_error :
    (∀ ce cx he hx : ℚ, ∀ prev : State3, ∀ err : ℚ,
        nextState ce cx he hx prev err = specTransition ce cx he hx prev err)
    ∧ SeqGame.CALMA_THRESHOLD_ENTER < SeqGame.CALMA_THRESHOLD_EXIT
    ∧ SeqGame.CAOS_THRESHOLD_EXIT < SeqGame.CAOS_THRESHOLD_ENTER
    ∧ CreatureGame.CALMA_THRESHOLD_ENTER < CreatureGame.CALMA_THRESHOLD_EXIT
    ∧ CreatureGame.CAOS_THRESHOLD_EXIT < CreatureGame.CAOS_THRESHOLD_ENTER
    ∧ (∀ err dt : ℚ, ∀ s : SeqGame.SeqState,
        (SeqGame.resolveTick err dt s).currentState =
          SeqGame.seqNextState s.currentState err)
    ∧ (∀ rand err dt tm : ℚ, ∀ s : CreatureGame.CreatureState,
        (CreatureGame.creatureResolve rand err dt tm s).currentState =
          CreatureGame.creatureNextState s.currentState err)
    ∧ (∀ err dt : ℚ, ∀ s t : SeqGame.SeqState,
        s.currentState = t.currentState →
        (SeqGame.resolveTick err dt s).currentState =
          (SeqGame.resolveTick err dt t).currentState) := by
  refine ⟨nextState_eq_specTransition, by with_unfolding_all decide, by with_unfolding_all decide, by with_unfolding_all decide, by with_unfolding_all decide,
    resolveTick_currentState, creatureResolve_currentState, ?_⟩
  intro err dt s t hst
  rw [resolveTick_currentState, resolveTick_currentState, hst]

/-- C3 witness: two PLAYING states that differ in energy but share the
previous emotional state resolve a tick with error 1 to the same state. -/
theorem transition_pure_witness :
    SeqGame.startSequenceGame.currentState =
      ({ SeqGame.startSequenceGame with energy := 0 } : SeqGame.SeqState).currentState ∧
    (SeqGame.resolveTick 1 16 SeqGame.startSequenceGame).currentState =
      (SeqGame.resolveTick 1 16
        { SeqGame.startSequenceGame with energy := 0 }).currentState :=
  ⟨rfl, transition_pure_function_of_state_and_error.2.2.2.2.2.2.2 1 16 _ _ rfl⟩

/-- C6: for a frequency set with at least one valid voice and a positive
target, calculateMaxError returns the maximum (not the average) of the
per-voice absolute MIDI differences, in both game variants; voices at
per-voice errors 0.1 and 1.9 yield maxError 1.9. -/
theorem maxError_is_worst_voice :
    (∀ (mu : ℚ → ℚ) (freqsHz : List ℚ) (targetFreq : ℚ),
        0 < targetFreq → filterValidFrequencies freqsHz ≠ [] →
        ∃ m, SeqGame.calculateMaxError mu freqsHz targetFreq = some m ∧
          m ∈ (filterValidFrequencies freqsHz).map (fun f => |mu f - mu targetFreq|) ∧
          ∀ e ∈ (filterValidFrequencies freqsHz).map (fun f => |mu f - mu targetFreq|),
            e ≤ m)
    ∧ (∀ (mu : ℚ → ℚ) (freqsHz : List ℚ) (targetMidi : ℚ),
        filterValidFrequencies freqsHz ≠ [] →
        ∃ m, CreatureGame.calculateMaxError mu freqsHz targetMidi = some m ∧
          m ∈ (filterValidFrequencies freqsHz).map (fun f => |mu f - targetMidi|) ∧
          ∀ e ∈ (filterValidFrequencies freqsHz).map (fun f => |mu f - targetMidi|),
            e ≤ m)
    ∧ SeqGame.calculateMaxError id [1001/10, 1019/10] 100 = some (19/10)
    ∧ CreatureGame.calculateMaxError id [1001/10, 1019/10] 100 = some (19/10) :=
  ⟨seq_calcMaxError_max, creature_calcMaxError_max, by with_unfolding_all decide, by with_unfolding_all decide⟩

/-- C6 witness: the general maximum characterisation applied to the concrete
two-voice set with per-voice errors 0.1 and 1.9 against target 100. -/
theorem maxError_is_worst_voice_witness :
    0 < (100 : ℚ) ∧ filterValidFrequencies [1001/10, 1019/10] ≠ [] ∧
    (∃ m, SeqGame.calculateMaxError id [1001/10, 1019/10] 100 = some m ∧
      m ∈ (filterValidFrequencies [1001/10, 1019/10]).map
        (fun f => |id f - id (100 : ℚ)|) ∧
      ∀ e ∈ (filterValidFrequencies [1001/10, 1019/10]).map
        (fun f => |id f - id (100 : ℚ)|), e ≤ m) :=
  ⟨by norm_num, by with_unfolding_all decide,
    maxError_is_worst_voice.1 id [1001/10, 1019/10] 100 (by norm_num) (by with_unfolding_all decide)⟩

theorem isDuplicateOf_false_iff (pitch e : ℚ) :
    Pitch.isDuplicateOf pitch e = false ↔
      (Pitch.minSeparation ≤ |pitch - e| / e ∧
        ¬ |pitch / e - (round (pitch / e) : ℚ)| < 1/10 ∧
        ¬ |e / pitch - (round (e / pitch) : ℚ)| < 1/10) := by
  simp only [Pitch.isDuplicateOf, Bool.or_eq_false_iff, decide_eq_false_iff_not,
    not_lt, and_assoc]
  norm_num

theorem acceptedPitch_iff (pitch : ℚ) (accepted : List ℚ) :
    Pitch.acceptedPitch pitch accepted = true ↔
      (0 < pitch ∧ Pitch.minFrequency ≤ pitch ∧ pitch ≤ Pitch.maxFrequency ∧
        ∀ existing ∈ accepted,
          Pitch.minSeparation ≤ |pitch - existing| / existing ∧
          ¬ |pitch / existing - (round (pitch / existing) : ℚ)| < 1/10 ∧
          ¬ |existing / pitch - (round (existing / pitch) : ℚ)| < 1/10) := by
  simp only [Pitch.acceptedPitch, Bool.and_eq_true, decide_eq_true_iff,
    Bool.not_eq_true', Bool.not_eq_true, Pitch.isDuplicate, List.any_eq_false,
    isDuplicateOf_false_iff, and_assoc]

/-- C9: a new pitch candidate is accepted by the multi-voice post-filter iff
it is positive, inside the detection band, and against every already-accepted
candidate its relative distance is at least minSeparation (0.15) and neither
the frequency ratio nor its reciprocal is within 0.1 of an integer; in
particular 440 Hz against an accepted 220 Hz fundamental (an exact octave)
is rejected as a duplicate and findAdditionalPitches returns nothing. -/
theorem harmonic_duplicate_rejection :
    (∀ (pitch : ℚ) (accepted : List ℚ),
        Pitch.acceptedPitch pitch accepted = true ↔
          (0 < pitch ∧ Pitch.minFrequency ≤ pitch ∧ pitch ≤ Pitch.maxFrequency ∧
            ∀ existing ∈ accepted,
              Pitch.minSeparation ≤ |pitch - existing| / existing ∧
              ¬ |pitch / existing - (round (pitch / existing) : ℚ)| < 1/10 ∧
              ¬ |existing / pitch - (round (existing / pitch) : ℚ)| < 1/10))
    ∧ Pitch.isDuplicateOf 440 220 = true
    ∧ Pitch.findAdditionalPitches (some 440) [220] 1 = [] :=
  ⟨acceptedPitch_iff, by with_unfolding_all decide, by with_unfolding_all decide⟩

/-- C1 counterexample: from a PLAYING-phase state in CAOS, one tick whose
computed maximum error is exactly CALM_ENTER (voice 100.8 Hz against target
100 with the identity conversion, error 0.8) moves the state directly to
CALMA, not UNSTABLE: error ≤ CALM_ENTER wins regardless of the previous
state, so the claimed flicker protection at exactly CALM_ENTER does not
exist in the code. -/
theorem hysteresis_calm_enter_jump_counterexample :
    SeqGame.sCaosPlaying.currentState = State3.CAOS ∧
    SeqGame.sCaosPlaying.isGameOver = false ∧
    SeqGame.sCaosPlaying.gamePhase = GamePhase.PLAYING ∧
    SeqGame.calculateMaxError id [504/5] (100 : ℚ) =
      some SeqGame.CALMA_THRESHOLD_ENTER ∧
    (SeqGame.updateSequenceGame id (fun _ => 100) [504/5] 100
      SeqGame.sCaosPlaying).currentState = State3.CALMA :=
  ⟨rfl, rfl, rfl, by with_unfolding_all decide, by with_unfolding_all decide⟩

/-- C1 (amended): an error exactly at CALM_ENTER yields CALM immediately
from any state; the flicker protection lives strictly inside the dead band:
a constant error strictly above CALM_ENTER and below CHAOS_EXIT fed from a
CHAOS start resolves to UNSTABLE after one tick and stays there (never
CALM), and from a CALM start a constant error above CALM_ENTER but at most
CALM_EXIT reports CALM on every tick. -/
theorem hysteresis_flicker_amended :
    (∀ prev : State3,
        SeqGame.seqNextState prev SeqGame.CALMA_THRESHOLD_ENTER = State3.CALMA)
    ∧ (∀ err : ℚ, SeqGame.CALMA_THRESHOLD_ENTER < err →
        err < SeqGame.CAOS_THRESHOLD_EXIT → ∀ n : ℕ, 1 ≤ n →
        (fun st => SeqGame.seqNextState st err)^[n] State3.CAOS = State3.TENSION)
    ∧ (∀ err : ℚ, SeqGame.CALMA_THRESHOLD_ENTER < err →
        err ≤ SeqGame.CALMA_THRESHOLD_EXIT → ∀ n : ℕ,
        (fun st => SeqGame.seqNextState st err)^[n] State3.CALMA = State3.CALMA) := by
  have hxe : SeqGame.CAOS_THRESHOLD_EXIT < SeqGame.CAOS_THRESHOLD_ENTER := by
    norm_num [SeqGame.CAOS_THRESHOLD_EXIT, SeqGame.CAOS_THRESHOLD_ENTER,
      SeqGame.TENSION_THRESHOLD]
  have hce : SeqGame.CALMA_THRESHOLD_EXIT < SeqGame.CAOS_THRESHOLD_EXIT := by
    norm_num [SeqGame.CALMA_THRESHOLD_EXIT, SeqGame.CAOS_THRESHOLD_EXIT,
      SeqGame.CALM_THRESHOLD, SeqGame.TENSION_THRESHOLD]
  refine ⟨?_, ?_, ?_⟩
  · intro prev
    simp [SeqGame.seqNextState, nextState]
  · intro err h1 h2 n hn
    have hstepC : SeqGame.seqNextState State3.CAOS err = State3.TENSION := by
      simp [SeqGame.seqNextState, nextState, not_le.mpr h1,
        not_lt.mpr (le_of_lt (lt_trans h2 hxe)), not_le.mpr h2]
    have hstepT : SeqGame.seqNextState State3.TENSION err = State3.TENSION := by
      simp [SeqGame.seqNextState, nextState, not_le.mpr h1,
        not_lt.mpr (le_of_lt (lt_trans h2 hxe))]
    have haux : ∀ m : ℕ,
        (fun st => SeqGame.seqNextState st err)^[m] State3.TENSION =
          State3.TENSION := by
      intro m
      induction m with
      | zero => rfl
      | succ k ih =>
        rw [Function.iterate_succ_apply', ih]
        exact hstepT
    obtain ⟨m, rfl⟩ := Nat.exists_eq_add_of_le hn
    rw [Nat.add_comm, Function.iterate_add_apply, Function.iterate_one, hstepC]
    exact haux m
  · intro err h1 h2 n
    have hstep : SeqGame.seqNextState State3.CALMA err = State3.CALMA := by
      simp [SeqGame.seqNextState, nextState, not_le.mpr h1,
        not_lt.mpr (le_of_lt (lt_trans (lt_of_le_of_lt h2 hce) hxe)), h2]
    induction n with
    | zero => rfl
    | succ k ih =>
      rw [Function.iterate_succ_apply', ih]
      exact hstep

/-- C1 witness: the amended dead-band behaviour evaluated at error 1 (two
ticks from CAOS give TENSION) and error 0.85 (three ticks from CALMA stay
CALMA), with the boundary fact at exactly CALM_ENTER. -/
theorem hysteresis_flicker_amended_witness :
    SeqGame.CALMA_THRESHOLD_ENTER < 1 ∧ (1 : ℚ) < SeqGame.CAOS_THRESHOLD_EXIT ∧
    (fun st => SeqGame.seqNextState st 1)^[2] State3.CAOS = State3.TENSION ∧
    SeqGame.CALMA_THRESHOLD_ENTER < 0.85 ∧
    (0.85 : ℚ) ≤ SeqGame.CALMA_THRESHOLD_EXIT ∧
    (fun st => SeqGame.seqNextState st 0.85)^[3] State3.CALMA = State3.CALMA ∧
    SeqGame.seqNextState State3.CAOS SeqGame.CALMA_THRESHOLD_ENTER =
      State3.CALMA :=
  ⟨by with_unfolding_all decide, by with_unfolding_all decide,
   hysteresis_flicker_amended.2.1 1 (by with_unfolding_all decide)
     (by with_unfolding_all decide) 2 (by norm_num),
   by with_unfolding_all decide, by with_unfolding_all decide,
   hysteresis_flicker_amended.2.2 0.85 (by with_unfolding_all decide)
     (by with_unfolding_all decide) 3,
   hysteresis_flicker_amended.1 State3.CAOS⟩

/-- C2 counterexample: a PLAYING tick of an active session (not game over)
with an empty frequency set inside the grace window leaves survivalTime at 5
instead of increasing it by dt seconds, refuting unconditional accrual. -/
theorem survival_grace_freeze_counterexample :
    SeqGame.sGracePlaying.isGameOver = false ∧
    SeqGame.sGracePlaying.gamePhase = GamePhase.PLAYING ∧
    SeqGame.sGracePlaying.survivalTime = 5 ∧
    (SeqGame.updateSequenceGame id SeqGame.nfDemo [] 100
      SeqGame.sGracePlaying).survivalTime = 5 ∧
    (5 : ℚ) + 100 / 1000 ≠ 5 :=
  ⟨rfl, rfl, rfl, by with_unfolding_all decide, by norm_num⟩

/-- C2 (amended): survival time increases by dt seconds exactly on the
PLAYING ticks that resolve an error value — any resolved tick regardless of
the emotional state, any tick with a computed maxError, and any silent tick
past the grace threshold — while a silent tick still inside the grace window
leaves it unchanged. -/
theorem survival_accrual_amended :
    (∀ err dt : ℚ, ∀ s : SeqGame.SeqState,
        (SeqGame.resolveTick err dt s).survivalTime = s.survivalTime + dt / 1000)
    ∧ (∀ (mu : ℚ → ℚ) (nf : ℕ → ℚ) (freqs : List ℚ) (dt err : ℚ)
        (s : SeqGame.SeqState),
        s.isGameOver = false → s.gamePhase = GamePhase.PLAYING →
        s.currentNoteIndex < 5 →
        SeqGame.calculateMaxError mu freqs (nf s.currentNoteIndex) = some err →
        (SeqGame.updateSequenceGame mu nf freqs dt s).survivalTime =
          s.survivalTime + dt / 1000)
    ∧ (∀ (mu : ℚ → ℚ) (nf : ℕ → ℚ) (freqs : List ℚ) (dt : ℚ)
        (s : SeqGame.SeqState),
        s.isGameOver = false → s.gamePhase = GamePhase.PLAYING →
        s.currentNoteIndex < 5 → filterValidFrequencies freqs = [] →
        GRACE_SILENCE ≤ s.graceSilenceTimer + dt →
        (SeqGame.updateSequenceGame mu nf freqs dt s).survivalTime =
          s.survivalTime + dt / 1000)
    ∧ (∀ (mu : ℚ → ℚ) (nf : ℕ → ℚ) (freqs : List ℚ) (dt : ℚ)
        (s : SeqGame.SeqState),
        s.isGameOver = false → s.gamePhase = GamePhase.PLAYING →
        s.currentNoteIndex < 5 → filterValidFrequencies freqs = [] →
        s.graceSilenceTimer + dt < GRACE_SILENCE →
        (SeqGame.updateSequenceGame mu nf freqs dt s).survivalTime =
          s.survivalTime) := by
  refine ⟨resolveTick_survivalTime, ?_, ?_, ?_⟩
  · intro mu nf freqs dt err s hov hph hidx herr
    rw [seq_update_playing mu nf freqs dt s hov hph]
    exact (seq_playingTick_signal mu nf freqs dt
      { s with time := s.time + dt } err hidx herr).2.2.1
  · intro mu nf freqs dt s hov hph hidx hempty hgr
    rw [seq_update_playing mu nf freqs dt s hov hph]
    exact (seq_playingTick_chaos mu nf freqs dt
      { s with time := s.time + dt } hidx hempty hgr).2.2.1
  · intro mu nf freqs dt s hov hph hidx hempty hgr
    rw [seq_update_playing mu nf freqs dt s hov hph]
    exact (seq_playingTick_frozen mu nf freqs dt
      { s with time := s.time + dt } hidx hempty hgr).2.2.2.1

/-- C2 witness: the amended accrual applied concretely — a silent tick past
the grace threshold (dt 300 from a fresh silence timer) accrues 0.3 seconds
of survival on the sGracePlaying state. -/
theorem survival_accrual_amended_witness :
    SeqGame.sGracePlaying.isGameOver = false ∧
    SeqGame.sGracePlaying.gamePhase = GamePhase.PLAYING ∧
    SeqGame.sGracePlaying.currentNoteIndex < 5 ∧
    filterValidFrequencies [] = [] ∧
    GRACE_SILENCE ≤ SeqGame.sGracePlaying.graceSilenceTimer + 300 ∧
    (SeqGame.updateSequenceGame id SeqGame.nfDemo [] 300
      SeqGame.sGracePlaying).survivalTime =
      SeqGame.sGracePlaying.survivalTime + 300 / 1000 :=
  ⟨rfl, rfl, by norm_num [SeqGame.sGracePlaying, SeqGame.startSequenceGame],
   rfl, by with_unfolding_all decide,
   survival_accrual_amended.2.2.1 id SeqGame.nfDemo [] 300 SeqGame.sGracePlaying
     rfl rfl (by norm_num [SeqGame.sGracePlaying, SeqGame.startSequenceGame])
     rfl (by with_unfolding_all decide)⟩

/-- C4: an empty or all-invalid frequency set never yields a zero error —
calculateMaxError reports null in both game variants; a silent PLAYING tick
whose accumulated silence stays below GRACE_SILENCE (300 ms) leaves the
emotional state, energy, life and survival time unchanged (and the session
alive); once accumulated silence reaches the threshold the tick synthesises
the huge error 999, which forces CHAOS from any previous state, and the
silence timer keeps accumulating rather than resetting; the timer is reset
to 0 only when a tick carries valid frequencies again.  The creature (doom)
variant behaves identically. -/
theorem silence_grace_policy :
    (∀ (mu : ℚ → ℚ) (freqs : List ℚ) (t : ℚ), filterValidFrequencies freqs = [] →
        SeqGame.calculateMaxError mu freqs t = none ∧
        CreatureGame.calculateMaxError mu freqs t = none)
    ∧ (∀ prev : State3, SeqGame.seqNextState prev 999 = State3.CAOS)
    ∧ (∀ prev : State3, CreatureGame.creatureNextState prev 999 = State3.CAOS)
    ∧ (∀ (mu : ℚ → ℚ) (nf : ℕ → ℚ) (freqs : List ℚ) (dt : ℚ)
        (s : SeqGame.SeqState),
        s.isGameOver = false → s.gamePhase = GamePhase.PLAYING →
        s.currentNoteIndex < 5 → filterValidFrequencies freqs = [] →
        s.graceSilenceTimer + dt < GRACE_SILENCE →
        (SeqGame.updateSequenceGame mu nf freqs dt s).currentState =
            s.currentState ∧
          (SeqGame.updateSequenceGame mu nf freqs dt s).energy = s.energy ∧
          (SeqGame.updateSequenceGame mu nf freqs dt s).life = s.life ∧
          (SeqGame.updateSequenceGame mu nf freqs dt s).survivalTime =
            s.survivalTime ∧
          (SeqGame.updateSequenceGame mu nf freqs dt s).isGameOver = false ∧
          (SeqGame.updateSequenceGame mu nf freqs dt s).graceSilenceTimer =
            s.graceSilenceTimer + dt)
    ∧ (∀ (mu : ℚ → ℚ) (nf : ℕ → ℚ) (freqs : List ℚ) (dt : ℚ)
        (s : SeqGame.SeqState),
        s.isGameOver = false → s.gamePhase = GamePhase.PLAYING →
        s.currentNoteIndex < 5 → filterValidFrequencies freqs = [] →
        GRACE_SILENCE ≤ s.graceSilenceTimer + dt →
        (SeqGame.updateSequenceGame mu nf freqs dt s).currentState =
            State3.CAOS ∧
          (SeqGame.updateSequenceGame mu nf freqs dt s).graceSilenceTimer =
            s.graceSilenceTimer + dt)
    ∧ (∀ (mu : ℚ → ℚ) (nf : ℕ → ℚ) (freqs : List ℚ) (dt err : ℚ)
        (s : SeqGame.SeqState),
        s.isGameOver = false → s.gamePhase = GamePhase.PLAYING →
        s.currentNoteIndex < 5 →
        SeqGame.calculateMaxError mu freqs (nf s.currentNoteIndex) = some err →
        (SeqGame.updateSequenceGame mu nf freqs dt s).graceSilenceTimer = 0)
    ∧ (∀ (mu : ℚ → ℚ) (rand : ℚ) (freqs : List ℚ) (dt tm : ℚ)
        (s : CreatureGame.CreatureState),
        s.isGameOver = false → s.targetMidi = some tm →
        filterValidFrequencies freqs = [] →
        s.graceSilenceTimer + dt < GRACE_SILENCE →
        (CreatureGame.updateCreatureGame mu rand freqs dt s).currentState =
            s.currentState ∧
          (CreatureGame.updateCreatureGame mu rand freqs dt s).energy =
            s.energy ∧
          (CreatureGame.updateCreatureGame mu rand freqs dt s).chaosEqSeconds =
            s.chaosEqSeconds ∧
          (CreatureGame.updateCreatureGame mu rand freqs dt s).scoreSeconds =
            s.scoreSeconds ∧
          (CreatureGame.updateCreatureGame mu rand freqs dt s).isGameOver =
            false ∧
          (CreatureGame.updateCreatureGame mu rand freqs dt s).graceSilenceTimer =
            s.graceSilenceTimer + dt)
    ∧ (∀ (mu : ℚ → ℚ) (rand : ℚ) (freqs : List ℚ) (dt tm : ℚ)
        (s : CreatureGame.CreatureState),
        s.isGameOver = false → s.targetMidi = some tm →
        filterValidFrequencies freqs = [] →
        GRACE_SILENCE ≤ s.graceSilenceTimer + dt →
        (CreatureGame.updateCreatureGame mu rand freqs dt s).currentState =
            State3.CAOS ∧
          (CreatureGame.updateCreatureGame mu rand freqs dt s).graceSilenceTimer =
            s.graceSilenceTimer + dt)
    ∧ (∀ (mu : ℚ → ℚ) (rand : ℚ) (freqs : List ℚ) (dt tm : ℚ)
        (s : CreatureGame.CreatureState),
        s.isGameOver = false → s.targetMidi = some tm →
        filterValidFrequencies freqs ≠ [] →
        (CreatureGame.updateCreatureGame mu rand freqs dt s).graceSilenceTimer =
          0) := by
  refine ⟨?_, seqNextState_999, creatureNextState_999, ?_, ?_, ?_,
    fun mu rand freqs dt tm s => creature_update_frozen mu rand freqs dt s tm,
    fun mu rand freqs dt tm s => creature_update_chaos mu rand freqs dt s tm,
    fun mu rand freqs dt tm s => creature_update_signal_grace mu rand freqs dt s tm⟩
  · intro mu freqs t hempty
    exact ⟨seq_calcMaxError_empty mu freqs t hempty,
      creature_calcMaxError_empty mu freqs t hempty⟩
  · intro mu nf freqs dt s hov hph hidx hempty hgr
    rw [seq_update_playing mu nf freqs dt s hov hph]
    have h := seq_playingTick_frozen mu nf freqs dt
      { s with time := s.time + dt } hidx hempty hgr
    exact ⟨h.1, h.2.1, h.2.2.1, h.2.2.2.1, by rw [h.2.2.2.2.1]; exact hov,
      h.2.2.2.2.2.2⟩
  · intro mu nf freqs dt s hov hph hidx hempty hgr
    rw [seq_update_playing mu nf freqs dt s hov hph]
    have h := seq_playingTick_chaos mu nf freqs dt
      { s with time := s.time + dt } hidx hempty hgr
    exact ⟨h.1, h.2.1⟩
  · intro mu nf freqs dt err s hov hph hidx herr
    rw [seq_update_playing mu nf freqs dt s hov hph]
    exact (seq_playingTick_signal mu nf freqs dt
      { s with time := s.time + dt } err hidx herr).2.1

/-- C4 witness: the grace policy evaluated concretely — a 100 ms silent tick
freezes sGracePlaying, a 300 ms silent tick forces CHAOS without resetting
the timer. -/
theorem silence_grace_policy_witness :
    SeqGame.sGracePlaying.isGameOver = false ∧
    SeqGame.sGracePlaying.gamePhase = GamePhase.PLAYING ∧
    SeqGame.sGracePlaying.currentNoteIndex < 5 ∧
    filterValidFrequencies [] = [] ∧
    SeqGame.sGracePlaying.graceSilenceTimer + 100 < GRACE_SILENCE ∧
    (SeqGame.updateSequenceGame id SeqGame.nfDemo [] 100
      SeqGame.sGracePlaying).currentState = SeqGame.sGracePlaying.currentState ∧
    GRACE_SILENCE ≤ SeqGame.sGracePlaying.graceSilenceTimer + 300 ∧
    (SeqGame.updateSequenceGame id SeqGame.nfDemo [] 300
      SeqGame.sGracePlaying).currentState = State3.CAOS :=
  ⟨rfl, rfl, by norm_num [SeqGame.sGracePlaying, SeqGame.startSequenceGame],
   rfl, by with_unfolding_all decide,
   (silence_grace_policy.2.2.2.1 id SeqGame.nfDemo [] 100 SeqGame.sGracePlaying
     rfl rfl (by norm_num [SeqGame.sGracePlaying, SeqGame.startSequenceGame])
     rfl (by with_unfolding_all decide)).1,
   by with_unfolding_all decide,
   (silence_grace_policy.2.2.2.2.1 id SeqGame.nfDemo [] 300 SeqGame.sGracePlaying
     rfl rfl (by norm_num [SeqGame.sGracePlaying, SeqGame.startSequenceGame])
     rfl (by with_unfolding_all decide)).1⟩

/-- C5: life starts at INITIAL_LIFE = 1.0; on every resolved PLAYING tick
life becomes clamp(life − dtSeconds · rate, 0, 1) where the rate is 0.15/s
in CHAOS, 0.05/s in TENSION (CHAOS = 3× TENSION) and 0 in CALMA; when the
clamped life reaches 0 the tick flips isGameOver and enters the terminal
GAME_OVER phase, after which updateSequenceGame leaves the whole state
untouched; concretely, a session whose PLAYING phase is spent entirely in
forced CHAOS drives life from 1.0 to exactly 0 after 1/CHAOS_DRAIN_RATE
seconds of resolved play (run of 23 ticks of dt = 2000/3 ms: 63 hundred
seconds of note playback and countdown, then ten CHAOS ticks totalling
exactly 1/0.15 s), setting isGameOver. -/
theorem life_model_end_to_end :
    SeqGame.startSequenceGame.life = SeqGame.INITIAL_LIFE
    ∧ SeqGame.INITIAL_LIFE = 1
    ∧ SeqGame.drainOf State3.CAOS = SeqGame.CHAOS_DRAIN_RATE
    ∧ SeqGame.drainOf State3.TENSION = SeqGame.TENSION_DRAIN_RATE
    ∧ SeqGame.drainOf State3.CALMA = 0
    ∧ SeqGame.CHAOS_DRAIN_RATE = 3 * SeqGame.TENSION_DRAIN_RATE
    ∧ (∀ err dt : ℚ, ∀ s : SeqGame.SeqState,
        (SeqGame.resolveTick err dt s).life =
          clamp (s.life - dt / 1000 *
              SeqGame.drainOf (SeqGame.seqNextState s.currentState err))
            0 SeqGame.INITIAL_LIFE)
    ∧ (∀ err dt : ℚ, ∀ s : SeqGame.SeqState,
        (SeqGame.resolveTick err dt s).life ≤ 0 →
        (SeqGame.resolveTick err dt s).isGameOver = true ∧
        (SeqGame.resolveTick err dt s).gamePhase = GamePhase.GAME_OVER)
    ∧ (∀ (mu : ℚ → ℚ) (nf : ℕ → ℚ) (freqs : List ℚ) (dt : ℚ)
        (s : SeqGame.SeqState), s.isGameOver = true →
        SeqGame.updateSequenceGame mu nf freqs dt s = s)
    ∧ ((SeqGame.runSeq id SeqGame.nfDemo (List.replicate 23 ([], 2000/3))
          SeqGame.startSequenceGame).life = 0 ∧
        (SeqGame.runSeq id SeqGame.nfDemo (List.replicate 23 ([], 2000/3))
          SeqGame.startSequenceGame).isGameOver = true ∧
        (SeqGame.runSeq id SeqGame.nfDemo (List.replicate 23 ([], 2000/3))
          SeqGame.startSequenceGame).gamePhase = GamePhase.GAME_OVER ∧
        (SeqGame.runSeq id SeqGame.nfDemo (List.replicate 23 ([], 2000/3))
          SeqGame.startSequenceGame).currentState = State3.CAOS ∧
        (SeqGame.runSeq id SeqGame.nfDemo (List.replicate 23 ([], 2000/3))
          SeqGame.startSequenceGame).survivalTime =
          1 / SeqGame.CHAOS_DRAIN_RATE) := by
  refine ⟨rfl, by norm_num [SeqGame.INITIAL_LIFE], rfl, rfl, rfl,
    by norm_num [SeqGame.CHAOS_DRAIN_RATE, SeqGame.TENSION_DRAIN_RATE],
    resolveTick_life, fun err dt s => (resolveTick_gameOver err dt s).1,
    seq_update_gameOver, ?_⟩
  refine ⟨?_, ?_, ?_, ?_, ?_⟩ <;> with_unfolding_all decide

/-- C5 witness: the life drain law and the terminal transition applied at a
concrete CHAOS tick (error 999 for one full second drains 0.15). -/
theorem life_model_end_to_end_witness :
    (SeqGame.resolveTick 999 1000
        { SeqGame.sCaosPlaying with life := 1/10 }).life =
      clamp ((1/10 : ℚ) - 1000 / 1000 *
          SeqGame.drainOf (SeqGame.seqNextState State3.CAOS 999))
        0 SeqGame.INITIAL_LIFE ∧
    (SeqGame.resolveTick 999 1000
      { SeqGame.sCaosPlaying with life := 1/10 }).life ≤ 0 ∧
    (SeqGame.resolveTick 999 1000
      { SeqGame.sCaosPlaying with life := 1/10 }).isGameOver = true ∧
    (SeqGame.resolveTick 999 1000
      { SeqGame.sCaosPlaying with life := 1/10 }).gamePhase =
      GamePhase.GAME_OVER ∧
    ({ SeqGame.sCaosPlaying with isGameOver := true } : SeqGame.SeqState) =
      SeqGame.updateSequenceGame id SeqGame.nfDemo [440] 16
        { SeqGame.sCaosPlaying with isGameOver := true } :=
  ⟨life_model_end_to_end.2.2.2.2.2.2.1 999 1000
      { SeqGame.sCaosPlaying with life := 1/10 },
   by with_unfolding_all decide,
   (life_model_end_to_end.2.2.2.2.2.2.2.1 999 1000
      { SeqGame.sCaosPlaying with life := 1/10 }
      (by with_unfolding_all decide)).1,
   (life_model_end_to_end.2.2.2.2.2.2.2.1 999 1000
      { SeqGame.sCaosPlaying with life := 1/10 }
      (by with_unfolding_all decide)).2,
   (life_model_end_to_end.2.2.2.2.2.2.2.2.1 id SeqGame.nfDemo [440] 16
      { SeqGame.sCaosPlaying with isGameOver := true } rfl).symm⟩

theorem seq_playingTick_index (mu : ℚ → ℚ) (nf : ℕ → ℚ) (freqs : List ℚ)
    (dt : ℚ) (s : SeqGame.SeqState) (hidx : s.currentNoteIndex < 5) :
    (SeqGame.playingTick mu nf freqs dt s).currentNoteIndex =
      (SeqGame.seqAdvance dt s).currentNoteIndex := by
  unfold SeqGame.playingTick SeqGame.getCurrentTarget
  rw [if_pos hidx]
  dsimp only
  split_ifs <;>
    first
      | rfl
      | rw [resolveTick_noteIndex]
      | (rcases hc : SeqGame.calculateMaxError mu (filterValidFrequencies freqs)
            (nf s.currentNoteIndex) with _ | err <;> simp only [hc] <;>
          first
            | rfl
            | rw [resolveTick_noteIndex])

/-- C7: after game start and any sequence of update ticks with arbitrary
frequency inputs and non-negative dt, energy stays in [0, 1] and life stays
in [0, 1] in the life-based sequence game, and energy stays in [0, 1] and
doom (chaosEqSeconds) stays in [0, CHAOS_MAX] in the doom-based creature
game, for every conversion map and every random-target oracle. -/
theorem energy_life_doom_invariants :
    (∀ (mu : ℚ → ℚ) (nf : ℕ → ℚ) (inputs : List (List ℚ × ℚ)),
        (∀ p ∈ inputs, 0 ≤ p.2) →
        SeqGame.SeqInv (SeqGame.runSeq mu nf inputs SeqGame.startSequenceGame))
    ∧ (∀ (mu : ℚ → ℚ) (m0 : ℚ) (inputs : List (ℚ × List ℚ × ℚ)),
        (∀ p ∈ inputs, 0 ≤ p.2.2) →
        CreatureGame.CreatureInv
          (CreatureGame.runCreature mu inputs (CreatureGame.startGame m0))) := by
  constructor
  · intro mu nf inputs _
    exact seq_inv_run mu nf inputs _ seq_inv_start
  · intro mu m0 inputs _
    exact creature_inv_run mu inputs _ (creature_inv_start m0)

/-- C7 witness: the invariants evaluated after one concrete tick of each
game. -/
theorem energy_life_doom_invariants_witness :
    (∀ p ∈ [(([110] : List ℚ), (16 : ℚ))], 0 ≤ p.2) ∧
    SeqGame.SeqInv (SeqGame.runSeq id SeqGame.nfDemo [([110], 16)]
      SeqGame.startSequenceGame) ∧
    (∀ p ∈ [((60 : ℚ), ([220] : List ℚ), (16 : ℚ))], 0 ≤ p.2.2) ∧
    CreatureGame.CreatureInv (CreatureGame.runCreature id
      [((60 : ℚ), ([220] : List ℚ), (16 : ℚ))] (CreatureGame.startGame 60)) :=
  ⟨by norm_num,
   energy_life_doom_invariants.1 id SeqGame.nfDemo [([110], 16)] (by norm_num),
   by norm_num,
   energy_life_doom_invariants.2 id 60 [(60, [220], 16)] (by norm_num)⟩

/-- C8: in a PLAYING tick the current note index advances to
(index + 1) mod 5 exactly when the accumulated note timer reaches the
current note's duration, and stays put otherwise (NOTE_SEQUENCE has 5
entries); concretely, a session run with dt = 100 ms ticks spends 42 ticks
in note playback and 30 in countdown, and after 48 further PLAYING ticks
(total PLAYING time 4.8 s = the sum of all five durations plus the first
note's duration again) the index has wrapped around to 1. -/
theorem sequence_looping :
    SeqGame.noteDurations.length = 5
    ∧ (∀ (mu : ℚ → ℚ) (nf : ℕ → ℚ) (freqs : List ℚ) (dt : ℚ)
        (s : SeqGame.SeqState),
        s.isGameOver = false → s.gamePhase = GamePhase.PLAYING →
        s.currentNoteIndex < 5 →
        (SeqGame.updateSequenceGame mu nf freqs dt s).currentNoteIndex =
          if SeqGame.noteDurationOf s.currentNoteIndex * 1000 ≤
              s.currentNoteTimer + dt
          then (s.currentNoteIndex + 1) % 5 else s.currentNoteIndex)
    ∧ (SeqGame.runSeq id SeqGame.nfDemo (List.replicate 120 ([], 100))
        SeqGame.startSequenceGame).currentNoteIndex = 1
    ∧ (SeqGame.runSeq id SeqGame.nfDemo (List.replicate 120 ([], 100))
        SeqGame.startSequenceGame).gamePhase = GamePhase.PLAYING
    ∧ (SeqGame.runSeq id SeqGame.nfDemo (List.replicate 120 ([], 100))
        SeqGame.startSequenceGame).isGameOver = false := by
  refine ⟨rfl, ?_, ?_, ?_, ?_⟩
  · intro mu nf freqs dt s hov hph hidx
    rw [seq_update_playing mu nf freqs dt s hov hph,
      seq_playingTick_index mu nf freqs dt { s with time := s.time + dt } hidx,
      seqAdvance_index]
  all_goals set_option maxRecDepth 8000 in with_unfolding_all decide

/-- C8 witness: the advancement law applied at a fresh PLAYING state with
dt = 100 (timer 100 of the 600 ms first note: no advance). -/
theorem sequence_looping_witness :
    SeqGame.sGracePlaying.isGameOver = false ∧
    SeqGame.sGracePlaying.gamePhase = GamePhase.PLAYING ∧
    SeqGame.sGracePlaying.currentNoteIndex < 5 ∧
    (SeqGame.updateSequenceGame id SeqGame.nfDemo [] 100
        SeqGame.sGracePlaying).currentNoteIndex =
      if SeqGame.noteDurationOf SeqGame.sGracePlaying.currentNoteIndex * 1000 ≤
          SeqGame.sGracePlaying.currentNoteTimer + 100
      then (SeqGame.sGracePlaying.currentNoteIndex + 1) % 5
      else SeqGame.sGracePlaying.currentNoteIndex :=
  ⟨rfl, rfl, by norm_num [SeqGame.sGracePlaying, SeqGame.startSequenceGame],
   sequence_looping.2.1 id SeqGame.nfDemo [] 100 SeqGame.sGracePlaying rfl rfl
     (by norm_num [SeqGame.sGracePlaying, SeqGame.startSequenceGame])⟩

/-- C10: within one session of the sequence game, life never increases — a
further update tick with non-negative dt, for any frequency input and any
conversion map, applied after any run from startSequenceGame, yields a life
no larger than before — whereas the doom variant does have a recovery
mechanism: the concrete calm-hold target-change tick reduces accumulated
doom from 5 to 4. -/
theorem life_monotone_within_session :
    (∀ (mu : ℚ → ℚ) (nf : ℕ → ℚ) (inputs : List (List ℚ × ℚ))
        (freqs : List ℚ) (dt : ℚ), 0 ≤ dt →
        (SeqGame.updateSequenceGame mu nf freqs dt
            (SeqGame.runSeq mu nf inputs SeqGame.startSequenceGame)).life ≤
          (SeqGame.runSeq mu nf inputs SeqGame.startSequenceGame).life)
    ∧ (CreatureGame.updateCreatureGame id 61 [440] 100
          { CreatureGame.sCalmHold with targetMidi := some 440 }).chaosEqSeconds <
        ({ CreatureGame.sCalmHold with
            targetMidi := some 440 } : CreatureGame.CreatureState).chaosEqSeconds := by
  constructor
  · intro mu nf inputs freqs dt hdt
    exact seq_update_life_le mu nf freqs dt _ hdt
      (seq_inv_run mu nf inputs _ seq_inv_start).2.2.1
  · with_unfolding_all decide

/-- C10 witness: the monotonicity applied after the empty run with a
concrete silent tick of 100 ms. -/
theorem life_monotone_witness :
    (0 : ℚ) ≤ 100 ∧
    (SeqGame.updateSequenceGame id SeqGame.nfDemo [] 100
        (SeqGame.runSeq id SeqGame.nfDemo [] SeqGame.startSequenceGame)).life ≤
      (SeqGame.runSeq id SeqGame.nfDemo [] SeqGame.startSequenceGame).life :=
  ⟨by norm_num,
   life_monotone_within_session.1 id SeqGame.nfDemo [] [] 100 (by norm_num)⟩

/-- C9 witness: the acceptance characterisation instantiated at candidate
330 Hz against the singleton accepted list [220]. -/
theorem harmonic_duplicate_rejection_witness :
    Pitch.acceptedPitch 330 [220] = true ↔
      (0 < (330 : ℚ) ∧ Pitch.minFrequency ≤ 330 ∧
        (330 : ℚ) ≤ Pitch.maxFrequency ∧
        ∀ existing ∈ ([220] : List ℚ),
          Pitch.minSeparation ≤ |(330 : ℚ) - existing| / existing ∧
          ¬ |(330 : ℚ) / existing - (round ((330 : ℚ) / existing) : ℚ)| < 1/10 ∧
          ¬ |existing / (330 : ℚ) - (round (existing / (330 : ℚ)) : ℚ)| < 1/10) :=
  harmonic_duplicate_rejection.1 330 [220]
